import Mathlib

/-!
Verification development for the PSI 05-15 rules engine (src/PSI_05_15.py).

The Python source is shallowly embedded:
* a pandas row becomes a `Row` structure whose fields model the recognised
  columns (the column families DX1..DX30, POA1..POA30, Sdx1..Sdx29,
  POA_Sdx1..POA_Sdx29, Proc1..Proc20, Proc{i}_Date, Proc{i}_Time are modelled
  as functions from the index to an optional cell value);
* a pandas cell value becomes `Option PyVal` (`none` = the column is absent,
  `PyVal.na` = a NaN cell), mirroring `row.get`;
* Python strings are Lean `String`s, manipulated through their character
  lists so that all operations are plain structural recursion;
* timestamps (`pd.Timestamp`) become `Int` seconds since an epoch; the
  calendar date of a timestamp is its floor-division by 86400, matching
  Python's `datetime.date()` truncation and `timedelta.days` floor semantics;
* the evaluator returns `Except EvalErr Result`: every `return` of the Python
  function becomes `Except.ok`, and a raised exception (reading an unbound
  local, or comparing incomparable values) becomes `Except.error`.
-/

/-- Model of a pandas cell value: a string, an integer, or NaN. -/
inductive PyVal where
  | str (s : String)
  | int (n : Int)
  | na
deriving DecidableEq, Repr

/-- Evaluation errors: Python exceptions the evaluator can raise. -/
inductive EvalErr where
  | unboundLocal
  | typeError
deriving DecidableEq, Repr

/-- Python `pd.isna` on an optional cell (`pd.isna(None)` and `pd.isna(nan)` are true). -/
def pdIsna : Option PyVal → Bool
  | none => true
  | some .na => true
  | some _ => false

/-- Python `pd.notna`. -/
def pdNotna (v : Option PyVal) : Bool := !pdIsna v

/-- Python truthiness of a cell value (note: NaN is truthy, 0 and "" are falsy). -/
def pyTruthy : PyVal → Bool
  | .str s => s ≠ ""
  | .int n => n ≠ 0
  | .na => true

/-- Truthiness of an optional cell (Python `None` is falsy). -/
def optTruthy : Option PyVal → Bool
  | none => false
  | some v => pyTruthy v

/-- Python `a or b` over optional cell values. -/
def pyOr (a b : Option PyVal) : Option PyVal := if optTruthy a then a else b

/-- Python `str()` of a cell value (`str(nan) = "nan"`). -/
def pyStr : PyVal → String
  | .str s => s
  | .int n => toString n
  | .na => "nan"

/-- Python `str()` of an optional cell value (`str(None) = "None"`). -/
def pyStrOpt : Option PyVal → String
  | none => "None"
  | some v => pyStr v

/-- Python `str(row.get(col, default))`: the default is used only when the column is absent. -/
def pyStrD (v : Option PyVal) (d : String) : String :=
  match v with
  | none => d
  | some v => pyStr v

/-- Character list of a string. -/
def strChars (s : String) : List Char := s.data

/-- String from a character list. -/
def ofChars (l : List Char) : String := String.mk l

/-- Python `str.strip()`: drop whitespace from both ends. -/
def pyStrip (s : String) : String :=
  ofChars ((((strChars s).dropWhile Char.isWhitespace).reverse.dropWhile Char.isWhitespace).reverse)

/-- Python `str.upper()` (ASCII, as used on ICD codes). -/
def pyUpper (s : String) : String := ofChars ((strChars s).map Char.toUpper)

/-- Python `str.replace(".", "")`: remove every period. -/
def stripDots (s : String) : String := ofChars ((strChars s).filter (fun c => c ≠ '.'))

/-- Parse a list of decimal digits (empty list fails), as `int()` does after sign handling. -/
def digitsToNat (l : List Char) : Option Nat :=
  if l.isEmpty then none
  else l.foldl (fun acc c =>
    match acc with
    | none => none
    | some a => if c.isDigit then some (a * 10 + (c.toNat - 48)) else none) (some 0)

/-- Python `int()` over a trimmed string: optional sign then digits. -/
def parseIntChars (l : List Char) : Option Int :=
  match l with
  | '-' :: rest => (digitsToNat rest).map (fun n => -(n : Int))
  | '+' :: rest => (digitsToNat rest).map (fun n => (n : Int))
  | _ => (digitsToNat l).map (fun n => (n : Int))

/-- Python `int(value)` with `ValueError`/`TypeError` caught, as the DRG coercion does:
an integer passes through, a string is parsed after stripping, anything else fails. -/
def tryInt : Option PyVal → Option Int
  | some (.int n) => some n
  | some (.str s) => parseIntChars (strChars (pyStrip s))
  | _ => none

/-- Python `value < n` for a cell against an integer: comparing `None` or a string
to an integer raises `TypeError`; `nan < n` is `False`. -/
def pyLtInt : Option PyVal → Int → Except EvalErr Bool
  | none, _ => .error .typeError
  | some (.str _), _ => .error .typeError
  | some .na, _ => .ok false
  | some (.int m), n => .ok (decide (m < n))

/-- Python `value >= n` for a cell against an integer (`nan >= n` is `False`). -/
def pyGeInt : Option PyVal → Int → Except EvalErr Bool
  | none, _ => .error .typeError
  | some (.str _), _ => .error .typeError
  | some .na, _ => .ok false
  | some (.int m), n => .ok (decide (m ≥ n))

/-- Python `value == n` for a cell against an integer (no exception; `"3" == 3` is `False`). -/
def pyEqInt : Option PyVal → Int → Bool
  | some (.int m), n => m == n
  | _, _ => false

/-- Python `pd.notna(v) and v < n`, the length-of-stay guard: the comparison is
only evaluated when the value is not NA (short-circuit `and`). -/
def pyNotnaAndLt (v : Option PyVal) (n : Int) : Except EvalErr Bool :=
  if pdNotna v then pyLtInt v n else .ok false

/-- Split a character list on a separator character. -/
def splitOnChar (sep : Char) : List Char → List (List Char)
  | [] => [[]]
  | c :: rest =>
    let r := splitOnChar sep rest
    if c == sep then [] :: r
    else
      match r with
      | [] => [[c]]
      | g :: gs => (c :: g) :: gs

/-- Days from civil date (proleptic Gregorian), the standard days-from-civil algorithm,
used to model the calendar ordering of `pd.to_datetime` results. -/
def daysFromCivil (y : Int) (m d : Nat) : Int :=
  let y' : Int := if m ≤ 2 then y - 1 else y
  let era : Int := Int.fdiv y' 400
  let yoe : Int := y' - era * 400
  let mp : Nat := (m + 9) % 12
  let doy : Int := Int.ofNat ((153 * mp + 2) / 5 + d - 1)
  let doe : Int := yoe * 365 + Int.fdiv yoe 4 - Int.fdiv yoe 100 + doy
  era * 146097 + doe - 719468

/-- Modelled from the library: `pd.to_datetime` on a "YYYY-MM-DD" date string
(the documented input format), yielding the calendar day number, or `none`
(NaT) when the string does not parse. -/
def parseDateChars (l : List Char) : Option Int :=
  match splitOnChar '-' l with
  | [ys, ms, ds] => do
    let y ← digitsToNat ys
    let m ← digitsToNat ms
    let d ← digitsToNat ds
    if 1 ≤ m ∧ m ≤ 12 ∧ 1 ≤ d ∧ d ≤ 31 then some (daysFromCivil (Int.ofNat y) m d) else none
  | _ => none

/-- Modelled from the library: parse an "HH:MM:SS" time as seconds of day. -/
def parseTimeChars (l : List Char) : Option Nat :=
  match splitOnChar ':' l with
  | [hs, ms, ss] => do
    let h ← digitsToNat hs
    let m ← digitsToNat ms
    let s ← digitsToNat ss
    if h < 24 ∧ m < 60 ∧ s < 60 then some (h * 3600 + m * 60 + s) else none
  | _ => none

/-- Modelled from the library: `pd.to_datetime(s, errors="coerce")` on a
"YYYY-MM-DD" or "YYYY-MM-DD HH:MM:SS" string, as seconds since the epoch;
`none` models NaT. -/
def parseDateTimeStr (s : String) : Option Int :=
  match splitOnChar ' ' (strChars s) with
  | [d] => (parseDateChars d).map (fun dd => dd * 86400)
  | [d, t] => do
    let dd ← parseDateChars d
    let tt ← parseTimeChars t
    some (dd * 86400 + Int.ofNat tt)
  | _ => none

/-- Calendar date of a timestamp, modelling `datetime.date()`. -/
def dateOf (t : Int) : Int := Int.fdiv t 86400

/-- Whole-day difference of two timestamps, modelling `(a - b).days`
(Python `timedelta.days` floor-divides). -/
def daysBetween (a b : Int) : Int := Int.fdiv (a - b) 86400

/-- Time-string normalisation from `extract_proc_info_enhanced` (source lines 188-194),
over the character list of the stripped time string:
a colon-free 6-character "HHMMSS" becomes "HH:MM:SS", a colon-free 4-character
"HHMM" becomes "HH:MM:00", anything else is passed through unchanged. -/
def normalizeTime (t : List Char) : List Char :=
  if !t.contains ':' && t.length == 6 then
    t.take 2 ++ [':'] ++ (t.drop 2).take 2 ++ [':'] ++ t.drop 4
  else if !t.contains ':' && t.length == 4 then
    t.take 2 ++ [':'] ++ t.drop 2 ++ [':', '0', '0']
  else t

/-- The procedure timestamp built by `extract_proc_info_enhanced` when both a date
and a non-blank time are present: `pd.to_datetime(f"{date} {time_str}")` after
time normalisation. `dateRepr` is `str(date)`, `timeStripped` is `str(time).strip()`. -/
def procDtFromDateTime (dateRepr : String) (timeStripped : String) : Option Int :=
  parseDateTimeStr (dateRepr ++ " " ++ ofChars (normalizeTime (strChars timeStripped)))

/-- Modelled from the library: `pd.to_datetime(value, errors="coerce")` on a raw
cell value (the date-only branch of `extract_proc_info_enhanced`). -/
def pdToDatetimeVal : PyVal → Option Int
  | .str s => parseDateTimeStr s
  | _ => none

/-- A diagnosis entry `(dx_code, poa_status, position, sequence_number)`
as produced by `extract_dx_codes_enhanced`. -/
structure DxEntry where
  code : String
  poa : String
  pos : String
  seq : Nat
deriving DecidableEq, Repr

/-- A procedure entry `(proc_code, proc_datetime, sequence_number)`
as produced by `extract_proc_info_enhanced`. -/
structure ProcEntry where
  code : String
  dt : Option Int
  seq : Nat
deriving DecidableEq, Repr

/-- An input row. Column families are modelled as functions from the column
index to the optional cell value: `dx i` is column `DX{i}`, `poa i` is `POA{i}`,
`sdx i` is `Sdx{i}`, `poaSdx i` is `POA_Sdx{i}`, `proc i` is `Proc{i}`,
`procDate i` is `Proc{i}_Date`, `procTime i` is `Proc{i}_Time`. Scalar fields
model the identically named columns (`admissionDate2` is `Admission_Date`,
`lengthOfStay2` is `Length_of_stay`). -/
structure Row where
  age : Option PyVal
  sex : Option PyVal
  dqtr : Option PyVal
  year : Option PyVal
  msdrg : Option PyVal
  drg : Option PyVal
  atype : Option PyVal
  mdc : Option PyVal
  admissionDate : Option PyVal
  admissionDate2 : Option PyVal
  lengthOfStay : Option PyVal
  lengthOfStay2 : Option PyVal
  pdx : Option PyVal
  dx : Nat → Option PyVal
  poa : Nat → Option PyVal
  sdx : Nat → Option PyVal
  poaSdx : Nat → Option PyVal
  proc : Nat → Option PyVal
  procDate : Nat → Option PyVal
  procTime : Nat → Option PyVal

/-- A row with every column absent. -/
def emptyRow : Row :=
  { age := none, sex := none, dqtr := none, year := none, msdrg := none,
    drg := none, atype := none, mdc := none, admissionDate := none,
    admissionDate2 := none, lengthOfStay := none, lengthOfStay2 := none,
    pdx := none, dx := fun _ => none, poa := fun _ => none,
    sdx := fun _ => none, poaSdx := fun _ => none, proc := fun _ => none,
    procDate := fun _ => none, procTime := fun _ => none }

/-- The code-set registry: a mapping from registry keys (e.g. "SURGI2R_CODES")
to the cleaned code lists extracted from the appendix. -/
def CodeSets : Type := List (String × List String)

/-- `code_sets.get(name, [])`: unknown names resolve to the empty list. -/
def csGet (cs : CodeSets) (name : String) : List String :=
  (List.lookup name cs).getD []

/-- Code cleaning applied to diagnosis/procedure cells:
`str(v).replace(".", "").upper().strip()`. -/
def cleanCode (v : Option PyVal) : String := pyStrip (pyUpper (stripDots (pyStrOpt v)))

/-- POA cleaning from `extract_dx_codes_enhanced`: `str(v).strip().upper()` when
the cell is not NA, else ""; values outside Y/N/U/W/"" normalise to "". -/
def cleanPoa (v : Option PyVal) : String :=
  if pdIsna v then ""
  else
    let p := pyUpper (pyStrip (pyStrOpt v))
    if p ∈ ["Y", "N", "U", "W", ""] then p else ""

/-- Blank test used throughout the source: `pd.isna(v) or not str(v).strip()`. -/
def cellBlank (v : Option PyVal) : Bool := pdIsna v || pyStrip (pyStrOpt v) == ""

/-- Embedding of `extract_dx_codes_enhanced` (source lines 120-169): principal
diagnosis from DX1 (falling back to Pdx, POA staying POA1), then secondary
diagnoses DX2..DX30 (falling back to Sdx{i}/POA_Sdx{i}). -/
def extract_dx_codes_enhanced (r : Row) : List DxEntry :=
  let dx1v0 := r.dx 1
  let poa1 := r.poa 1
  let dx1v := if cellBlank dx1v0 then r.pdx else dx1v0
  let principal : List DxEntry :=
    if !cellBlank dx1v then
      [{ code := cleanCode dx1v, poa := cleanPoa poa1, pos := "PRINCIPAL", seq := 1 }]
    else []
  (List.range 29).foldl (fun acc i =>
    let i1 := i + 1
    let dxS := r.dx (i1 + 1)
    let poaS := r.poa (i1 + 1)
    let pair := if cellBlank dxS then (r.sdx i1, r.poaSdx i1) else (dxS, poaS)
    if !cellBlank pair.1 then
      acc ++ [{ code := cleanCode pair.1, poa := cleanPoa pair.2, pos := "SECONDARY", seq := i1 + 1 }]
    else acc) principal

/-- Embedding of `extract_proc_info_enhanced` (source lines 171-206): for
Proc1..Proc20, keep non-blank codes; combine date and (normalised) time into a
timestamp, falling back to the date alone, `none` on parse failure. -/
def extract_proc_info_enhanced (r : Row) : List ProcEntry :=
  (List.range 20).foldl (fun acc i =>
    let idx := i + 1
    let code := r.proc idx
    let date := r.procDate idx
    let time := r.procTime idx
    if pdNotna code && pyStrip (pyStrOpt code) != "" then
      let proc_dt : Option Int :=
        if pdNotna date then
          if pdNotna time && pyStrip (pyStrOpt time) != "" then
            procDtFromDateTime (pyStrOpt date) (pyStrip (pyStrOpt time))
          else
            match date with
            | some v => pdToDatetimeVal v
            | none => none
        else none
      acc ++ [{ code := cleanCode code, dt := proc_dt, seq := idx }]
    else acc) []

/-- Embedding of `parse_date_safe` (source lines 208-216). -/
def parse_date_safe (v : Option PyVal) : Option Int :=
  if pdIsna v || v == some (.str "") then none
  else
    match v with
    | some u => pdToDatetimeVal u
    | none => none

/-- Python truthiness of an optional filter string (the `position`/`poa`
keyword arguments: `None` and `""` are falsy). -/
def filterTruthy : Option String → Bool
  | none => false
  | some s => s ≠ ""

/-- The per-entry match test of `is_code_in_dx_list`/`get_matching_dx_info`:
the code is in the set, and each truthy filter matches. -/
def dxEntryMatches (codes : List String) (position poa : Option String) (e : DxEntry) : Bool :=
  codes.contains e.code
  && (!filterTruthy position || position == some e.pos)
  && (!filterTruthy poa || poa == some e.poa)

/-- Embedding of `is_code_in_dx_list` (source lines 218-230). -/
def is_code_in_dx_list (dx : List DxEntry) (codes : List String)
    (position poa : Option String) : Bool :=
  dx.any (dxEntryMatches codes position poa)

/-- Embedding of `get_matching_dx_info` (source lines 232-245). -/
def get_matching_dx_info (dx : List DxEntry) (codes : List String)
    (position poa : Option String) : List DxEntry :=
  dx.filter (dxEntryMatches codes position poa)

/-- Embedding of `get_first_procedure_date` (source lines 247-250):
minimum timestamp of the target procedures with a non-null timestamp. -/
def get_first_procedure_date (procs : List ProcEntry) (targets : List String) : Option Int :=
  (procs.filterMap (fun p => if targets.contains p.code then p.dt else none)).min?

/-- Embedding of `get_last_procedure_date` (source lines 252-255). -/
def get_last_procedure_date (procs : List ProcEntry) (targets : List String) : Option Int :=
  (procs.filterMap (fun p => if targets.contains p.code then p.dt else none)).max?

/-- Embedding of `has_any_procedure` (source lines 257-259). -/
def has_any_procedure (procs : List ProcEntry) (targets : List String) : Bool :=
  procs.any (fun p => targets.contains p.code)

/-- Embedding of `count_procedures_of_type` (source lines 261-263). -/
def count_procedures_of_type (procs : List ProcEntry) (targets : List String) : Nat :=
  (procs.filter (fun p => targets.contains p.code)).length

/-- A value stored in the `detailed_info` dictionary: a string, a boolean,
a list of code strings, or the PSI-15 per-organ analysis map, whose triple is
(has_injury_dx, has_related_proc_in_window, is_poa_excluded). -/
inductive DetailVal where
  | str (s : String)
  | bool (b : Bool)
  | strList (l : List String)
  | organMap (m : List (String × (Bool × Bool × Bool)))
deriving DecidableEq, Repr

/-- The `detailed_info` dictionary, in insertion order. -/
abbrev Details := List (String × DetailVal)

/-- The triple returned by `evaluate_psi_comprehensive`:
(psi_status, rationale, detailed_info). -/
abbrev Result := String × List String × Details

/-- Python `sep.join(parts)`. -/
def pyJoin (sep : String) : List String → String
  | [] => ""
  | [x] => x
  | x :: xs => x ++ (sep ++ pyJoin sep xs)

/-- The code of the first match, modelling `matches[0][0]` (used only under a
non-emptiness guard in the source; "" is returned for the impossible empty case). -/
def headCode (l : List DxEntry) : String := (l.head?.map DxEntry.code).getD ""

/-- Python `a and b and a < b` over optional timestamps (`None` is falsy). -/
def optLt (a b : Option Int) : Bool :=
  match a, b with
  | some x, some y => decide (x < y)
  | _, _ => false

/-- Python `a and b and a > b` over optional timestamps. -/
def optGt (a b : Option Int) : Bool :=
  match a, b with
  | some x, some y => decide (x > y)
  | _, _ => false

/-- Python `a and b and a >= b` over optional timestamps. -/
def optGe (a b : Option Int) : Bool :=
  match a, b with
  | some x, some y => decide (x ≥ y)
  | _, _ => false

/-- Python `a and b and a.date() <= b.date()` over optional timestamps. -/
def optDateLe (a b : Option Int) : Bool :=
  match a, b with
  | some x, some y => decide (dateOf x ≤ dateOf y)
  | _, _ => false

/-- Embedding of `classify_immune_compromise` (source lines 270-300), the PSI-13
risk categoriser. Note that the severe/moderate checks test only POA=Y and
POA=N ("Check both POA statuses"), not U/W/blank. -/
def classify_immune_compromise (dx : List DxEntry) (procs : List ProcEntry) (cs : CodeSets) : String :=
  let severe := csGet cs "SEVEREIMMUNED_CODES"
  let moderate := csGet cs "MODERATEIMMUNED_CODES"
  let malignancy := csGet cs "MALIGNANCY_CODES"
  let chemo := csGet cs "CHEMOTHERAPYP_CODES"
  let radiation := csGet cs "RADIATIONP_CODES"
  if is_code_in_dx_list dx severe none (some "Y") || is_code_in_dx_list dx severe none (some "N") then
    "severe_immune_compromise"
  else if is_code_in_dx_list dx moderate none (some "Y") || is_code_in_dx_list dx moderate none (some "N") then
    "moderate_immune_compromise"
  else if is_code_in_dx_list dx malignancy none none
      && (has_any_procedure procs chemo || has_any_procedure procs radiation) then
    "malignancy_with_treatment"
  else "baseline_risk"

/-- Embedding of `classify_procedure_complexity_psi15` (source lines 302-321):
count procedures dated on the index calendar day. The code-set argument is
unused in the source as well. -/
def classify_procedure_complexity_psi15 (procs : List ProcEntry) (_cs : CodeSets) (index : Int) : String :=
  let procs_on_index := procs.filter (fun p =>
    match p.dt with
    | some dt => dateOf dt == dateOf index
    | none => false)
  let n := procs_on_index.length
  if n ≥ 5 then "high_complexity"
  else if n ≥ 2 then "moderate_complexity"
  else "low_complexity"

/-- The PSI-15 organ systems (source `OrganSystem` enum). -/
inductive OrganSystem where
  | spleen
  | adrenal
  | vessel
  | diaphragm
  | gastrointestinal
  | genitourinary
deriving DecidableEq, Repr

/-- The `.value` string of an organ system. -/
def OrganSystem.value : OrganSystem → String
  | .spleen => "spleen"
  | .adrenal => "adrenal"
  | .vessel => "vessel"
  | .diaphragm => "diaphragm"
  | .gastrointestinal => "gastrointestinal"
  | .genitourinary => "genitourinary"

/-- Iteration order of `for os in OrganSystem` (definition order of the enum). -/
def organList : List OrganSystem :=
  [.spleen, .adrenal, .vessel, .diaphragm, .gastrointestinal, .genitourinary]

/-- Embedding of `build_organ_system_mapping` (source lines 85-115): each organ's
(injury_codes, procedure_codes) pair. -/
def build_organ_system_mapping (cs : CodeSets) : OrganSystem → List String × List String
  | .spleen => (csGet cs "SPLEEN15D_CODES", csGet cs "SPLEEN15P_CODES")
  | .adrenal => (csGet cs "ADRENAL15D_CODES", csGet cs "ADRENAL15P_CODES")
  | .vessel => (csGet cs "VESSEL15D_CODES", csGet cs "VESSEL15P_CODES")
  | .diaphragm => (csGet cs "DIAPHR15D_CODES", csGet cs "DIAPHR15P_CODES")
  | .gastrointestinal => (csGet cs "GI15D_CODES", csGet cs "GI15P_CODES")
  | .genitourinary => (csGet cs "GU15D_CODES", csGet cs "GU15P_CODES")

/-- Accumulator of the PSI-15 per-organ loop: the rationale lines appended so
far, the organ_analysis_results map, and the qualifying-organ list. -/
structure Psi15Acc where
  rat : List String
  omap : List (String × (Bool × Bool × Bool))
  qual : List String
deriving DecidableEq, Repr

/-- One iteration of the PSI-15 per-organ loop (source lines 1148-1182):
collect injury diagnoses (secondary, POA=N), related procedures in the
1..30-day window after the index date, apply the per-organ POA block, record
the organ analysis, and collect qualifying organs. -/
def psi15_organ_step (organs : OrganSystem → List String × List String)
    (dx : List DxEntry) (procs : List ProcEntry) (index : Int)
    (acc : Psi15Acc) (o : OrganSystem) : Psi15Acc :=
  let oi := organs o
  let injury_dx_matches := get_matching_dx_info dx oi.1 (some "SECONDARY") (some "N")
  let related_proc_matches := procs.filter (fun p =>
    oi.2.contains p.code &&
    match p.dt with
    | some dt => decide (1 ≤ daysBetween dt index) && decide (daysBetween dt index ≤ 30)
    | none => false)
  let poa_injury_matches := get_matching_dx_info dx oi.1 (some "SECONDARY") (some "Y")
  let is_excluded_by_poa := !poa_injury_matches.isEmpty && !related_proc_matches.isEmpty
  let rat' :=
    if is_excluded_by_poa then
      acc.rat ++ ["Exclusion: POA injury (" ++ headCode poa_injury_matches
        ++ ") with matching related procedure for " ++ o.value]
    else acc.rat
  let omap' := acc.omap ++
    [(o.value, (!injury_dx_matches.isEmpty, !related_proc_matches.isEmpty, is_excluded_by_poa))]
  let qual' :=
    if !injury_dx_matches.isEmpty && !related_proc_matches.isEmpty && !is_excluded_by_poa then
      acc.qual ++ [o.value]
    else acc.qual
  { rat := rat', omap := omap', qual := qual' }

/-- PSI 05 - Retained Surgical Item (source lines 394-424). -/
def psi05 (age : Option PyVal) (ms_drg : String) (dx : List DxEntry)
    (procs : List ProcEntry) (cs : CodeSets) : Except EvalErr Result :=
  match pyGeInt age 18 with
  | .error e => .error e
  | .ok ge =>
    let is_surgical_drg := (csGet cs "SURGI2R_CODES").contains ms_drg
    let is_medical_drg := (csGet cs "MEDIC2R_CODES").contains ms_drg
    let is_obstetric_case := is_code_in_dx_list dx (csGet cs "MDC14PRINDX_CODES") (some "PRINCIPAL") none
    if !((ge && (is_surgical_drg || is_medical_drg)) || is_obstetric_case) then
      .ok ("Exclusion", ["Population Exclusion: Not surgical/medical DRG (>=18) or obstetric case (any age)"], [])
    else
      let foreiid_codes := csGet cs "FOREIID_CODES"
      if is_code_in_dx_list dx foreiid_codes (some "PRINCIPAL") none then
        .ok ("Exclusion", ["Exclusion: Principal diagnosis of retained surgical item"], [])
      else if is_code_in_dx_list dx foreiid_codes (some "SECONDARY") (some "Y") then
        .ok ("Exclusion", ["Exclusion: Secondary diagnosis of retained surgical item Present on Admission (POA=Y)"], [])
      else
        let numerator_matches := get_matching_dx_info dx foreiid_codes (some "SECONDARY") (some "N")
        if !numerator_matches.isEmpty then
          .ok ("Inclusion",
            ["Numerator: Retained surgical item found (DX: " ++ headCode numerator_matches ++ ", POA: N)"],
            [("retained_surgical_item_matches", .strList (numerator_matches.map DxEntry.code))])
        else
          .ok ("Exclusion", ["No qualifying retained surgical item diagnosis found for numerator"], [])

/-- PSI 06 - Iatrogenic Pneumothorax (source lines 427-476). -/
def psi06 (age : Option PyVal) (ms_drg : String) (dx : List DxEntry)
    (procs : List ProcEntry) (cs : CodeSets) : Except EvalErr Result :=
  match pyGeInt age 18 with
  | .error e => .error e
  | .ok ge =>
    let is_surgical_or_medical := (csGet cs "SURGI2R_CODES").contains ms_drg
      || (csGet cs "MEDIC2R_CODES").contains ms_drg
    if !(ge && is_surgical_or_medical) then
      .ok ("Exclusion", ["Population Exclusion: Not surgical/medical DRG or age < 18"], [])
    else
      let iatptxd_codes := csGet cs "IATPTXD_CODES"
      let ctraumd_codes := csGet cs "CTRAUMD_CODES"
      let pleurad_codes := csGet cs "PLEURAD_CODES"
      let thoraip_codes := csGet cs "THORAIP_CODES"
      let cardsip_codes := csGet cs "CARDSIP_CODES"
      if is_code_in_dx_list dx iatptxd_codes (some "PRINCIPAL") none then
        .ok ("Exclusion", ["Exclusion: Principal diagnosis of non-traumatic pneumothorax"], [])
      else if is_code_in_dx_list dx iatptxd_codes (some "SECONDARY") (some "Y") then
        .ok ("Exclusion", ["Exclusion: Secondary diagnosis of non-traumatic pneumothorax POA=Y"], [])
      else if is_code_in_dx_list dx ctraumd_codes none none then
        .ok ("Exclusion", ["Exclusion: Any diagnosis of specified chest trauma"], [])
      else if is_code_in_dx_list dx pleurad_codes none none then
        .ok ("Exclusion", ["Exclusion: Any diagnosis of pleural effusion"], [])
      else if has_any_procedure procs thoraip_codes || has_any_procedure procs cardsip_codes then
        .ok ("Exclusion", ["Exclusion: Thoracic surgery or trans-pleural cardiac procedure"], [])
      else
        let iatroid_codes := csGet cs "IATROID_CODES"
        let numerator_matches := get_matching_dx_info dx iatroid_codes (some "SECONDARY") (some "N")
        if !numerator_matches.isEmpty then
          .ok ("Inclusion",
            ["Numerator: Iatrogenic pneumothorax found (DX: " ++ headCode numerator_matches ++ ", POA: N)"],
            [("iatrogenic_pneumothorax_matches", .strList (numerator_matches.map DxEntry.code))])
        else
          .ok ("Exclusion", ["No qualifying iatrogenic pneumothorax diagnosis found for numerator"], [])

/-- PSI 07 - CVC-Related Bloodstream Infection (source lines 479-527). -/
def psi07 (age : Option PyVal) (ms_drg : String) (dx : List DxEntry)
    (procs : List ProcEntry) (length_of_stay : Option PyVal) (cs : CodeSets) : Except EvalErr Result :=
  match pyGeInt age 18 with
  | .error e => .error e
  | .ok ge =>
    let is_surgical_or_medical := (csGet cs "SURGI2R_CODES").contains ms_drg
      || (csGet cs "MEDIC2R_CODES").contains ms_drg
    let is_obstetric_case := is_code_in_dx_list dx (csGet cs "MDC14PRINDX_CODES") (some "PRINCIPAL") none
    if !((ge && is_surgical_or_medical) || is_obstetric_case) then
      .ok ("Exclusion", ["Population Exclusion: Not surgical/medical DRG (>=18) or obstetric case (any age)"], [])
    else
      let idtmc3d_codes := csGet cs "IDTMC3D_CODES"
      let canceid_codes := csGet cs "CANCEID_CODES"
      let immunid_codes := csGet cs "IMMUNID_CODES"
      let immunip_codes := csGet cs "IMMUNIP_CODES"
      if is_code_in_dx_list dx idtmc3d_codes (some "PRINCIPAL") none then
        .ok ("Exclusion", ["Exclusion: Principal diagnosis of CVC-related BSI"], [])
      else if is_code_in_dx_list dx idtmc3d_codes (some "SECONDARY") (some "Y") then
        .ok ("Exclusion", ["Exclusion: Secondary diagnosis of CVC-related BSI POA=Y"], [])
      else
        match pyNotnaAndLt length_of_stay 2 with
        | .error e => .error e
        | .ok losLt =>
          if losLt then
            .ok ("Exclusion", ["Exclusion: Length of stay < 2 days (" ++ pyStrOpt length_of_stay ++ " days)"], [])
          else if is_code_in_dx_list dx canceid_codes none none then
            .ok ("Exclusion", ["Exclusion: Any diagnosis of cancer"], [])
          else if is_code_in_dx_list dx immunid_codes none none || has_any_procedure procs immunip_codes then
            .ok ("Exclusion", ["Exclusion: Any diagnosis/procedure for immunocompromised state"], [])
          else
            let numerator_matches := get_matching_dx_info dx idtmc3d_codes (some "SECONDARY") (some "N")
            if !numerator_matches.isEmpty then
              .ok ("Inclusion",
                ["Numerator: CVC-related BSI found (DX: " ++ headCode numerator_matches ++ ", POA: N)"],
                [("cvc_bsi_matches", .strList (numerator_matches.map DxEntry.code))])
            else
              .ok ("Exclusion", ["No qualifying CVC-related BSI diagnosis found for numerator"], [])

/-- PSI 08 - In-Hospital Fall-Associated Fracture (source lines 530-582). -/
def psi08 (age : Option PyVal) (ms_drg : String) (dx : List DxEntry)
    (procs : List ProcEntry) (cs : CodeSets) : Except EvalErr Result :=
  match pyGeInt age 18 with
  | .error e => .error e
  | .ok ge =>
    let is_surgical_or_medical := (csGet cs "SURGI2R_CODES").contains ms_drg
      || (csGet cs "MEDIC2R_CODES").contains ms_drg
    if !(ge && is_surgical_or_medical) then
      .ok ("Exclusion", ["Population Exclusion: Not surgical/medical DRG or age < 18"], [])
    else
      let fxid_codes := csGet cs "FXID_CODES"
      let prosfxd_codes := csGet cs "PROSFXID_CODES"
      if is_code_in_dx_list dx fxid_codes (some "PRINCIPAL") none then
        .ok ("Exclusion", ["Exclusion: Principal diagnosis of fracture"], [])
      else if is_code_in_dx_list dx fxid_codes (some "SECONDARY") (some "Y") then
        .ok ("Exclusion", ["Exclusion: Secondary diagnosis of fracture POA=Y"], [])
      else if is_code_in_dx_list dx prosfxd_codes none none then
        .ok ("Exclusion", ["Exclusion: Any diagnosis of joint prosthesis-associated fracture"], [])
      else
        let hip_fx_codes := csGet cs "HIPFXID_CODES"
        let hip_fx_matches := get_matching_dx_info dx hip_fx_codes (some "SECONDARY") (some "N")
        if !hip_fx_matches.isEmpty then
          .ok ("Inclusion",
            ["Numerator: Hip fracture found (DX: " ++ headCode hip_fx_matches ++ ", POA: N)"],
            [("fracture_type", .str "hip_fracture"),
             ("hip_fracture_matches", .strList (hip_fx_matches.map DxEntry.code)),
             ("overall_fracture", .bool true)])
        else
          let other_fx_matches0 := get_matching_dx_info dx fxid_codes (some "SECONDARY") (some "N")
          let other_fx_matches := other_fx_matches0.filter (fun m => !hip_fx_codes.contains m.code)
          if !other_fx_matches.isEmpty then
            .ok ("Inclusion",
              ["Numerator: Other fracture found (DX: " ++ headCode other_fx_matches ++ ", POA: N)"],
              [("fracture_type", .str "other_fracture"),
               ("other_fracture_matches", .strList (other_fx_matches.map DxEntry.code)),
               ("overall_fracture", .bool true)])
          else
            .ok ("Exclusion", ["No qualifying in-hospital fracture found for numerator"], [])

/-- The timing-based exclusion block of PSI 09 (source lines 627-648), run only
when timing validation is on and the admission date parsed: returns the first
triggered exclusion line, if any. -/
def psi09_timing (procs : List ProcEntry)
    (or_proc_codes hemoth2p_codes thrombolyticp_codes : List String)
    (timingBound : Bool) : Option String :=
  if !timingBound then none
  else if count_procedures_of_type procs or_proc_codes == 1
      && has_any_procedure procs hemoth2p_codes then
    some "Exclusion: Only OR procedure is for hemorrhage/hematoma treatment"
  else if optLt (get_first_procedure_date procs hemoth2p_codes)
      (get_first_procedure_date procs or_proc_codes) then
    some "Exclusion: Hemorrhage treatment before first OR procedure"
  else if optDateLe (get_first_procedure_date procs thrombolyticp_codes)
      (get_first_procedure_date procs hemoth2p_codes) then
    some "Exclusion: Thrombolytic therapy before/same day as hemorrhage treatment"
  else none

/-- The numerator section of PSI 09 (source lines 650-677). `timingBound` says
whether the timing block ran and bound `first_or_date`/`first_hemoth2p_date`;
reading them unbound (timing validation on, admission date null) raises
`UnboundLocalError`, modelled as `Except.error .unboundLocal`. -/
def psi09_numerator (dx : List DxEntry) (procs : List ProcEntry)
    (pohmri2d_codes hemoth2p_codes : List String)
    (validate_timing timingBound : Bool)
    (first_or_date first_hemoth2p_date : Option Int) : Except EvalErr Result :=
  let numerator_dx_matches := get_matching_dx_info dx pohmri2d_codes (some "SECONDARY") (some "N")
  let has_treatment_procedure := has_any_procedure procs hemoth2p_codes
  if !numerator_dx_matches.isEmpty && has_treatment_procedure then
    if validate_timing then
      if !timingBound then .error .unboundLocal
      else
        match first_or_date, first_hemoth2p_date with
        | some fo, some fh =>
          if fh > fo then
            .ok ("Inclusion",
              ["Numerator: Postop hemorrhage/hematoma with treatment (DX: "
                ++ headCode numerator_dx_matches ++ ")"],
              [("hemorrhage_dx_matches", .strList (numerator_dx_matches.map DxEntry.code)),
               ("has_treatment_procedure", .bool true)])
          else
            .ok ("Exclusion",
              ["Numerator: Hemorrhage treatment procedure occurred before or same day as first OR procedure (timing mismatch)"], [])
        | _, _ =>
          .ok ("Exclusion", ["Numerator: Missing procedure dates for timing validation"], [])
    else
      .ok ("Inclusion",
        ["Numerator: Postop hemorrhage/hematoma with treatment (DX: "
          ++ headCode numerator_dx_matches ++ ") (Timing validation off)"],
        [("hemorrhage_dx_matches", .strList (numerator_dx_matches.map DxEntry.code)),
         ("has_treatment_procedure", .bool true)])
  else if !numerator_dx_matches.isEmpty then
    .ok ("Exclusion",
      ["Numerator: Postop hemorrhage/hematoma diagnosis found, but no qualifying treatment procedure"], [])
  else if has_treatment_procedure then
    .ok ("Exclusion",
      ["Numerator: Treatment procedure found, but no qualifying postop hemorrhage/hematoma diagnosis"], [])
  else
    .ok ("Exclusion",
      ["No qualifying postop hemorrhage/hematoma diagnosis or treatment procedure found for numerator"], [])

/-- PSI 09 - Postoperative Hemorrhage or Hematoma (source lines 585-677).
The locals `first_or_date`, `first_hemoth2p_date` are assigned only inside the
`if validate_timing and admit_date:` block; reading them in the numerator when
that block did not run raises `UnboundLocalError`, modelled as
`Except.error .unboundLocal`. -/
def psi09 (age : Option PyVal) (ms_drg : String) (dx : List DxEntry)
    (procs : List ProcEntry) (admit_date : Option Int) (validate_timing : Bool)
    (cs : CodeSets) : Except EvalErr Result :=
  match pyGeInt age 18 with
  | .error e => .error e
  | .ok ge =>
    let is_surgical_drg := (csGet cs "SURGI2R_CODES").contains ms_drg
    let or_proc_codes := csGet cs "ORPROC_CODES"
    let has_or_procedure := has_any_procedure procs or_proc_codes
    if !(ge && is_surgical_drg && has_or_procedure) then
      .ok ("Exclusion", ["Population Exclusion: Not surgical DRG (>=18) or no OR procedure"], [])
    else
      let pohmri2d_codes := csGet cs "POHMRI2D_CODES"
      let hemoth2p_codes := csGet cs "HEMOTH2P_CODES"
      let coagdid_codes := csGet cs "COAGDID_CODES"
      let medbleedd_codes := csGet cs "MEDBLEEDD_CODES"
      let thrombolyticp_codes := csGet cs "THROMBOLYTICP_CODES"
      if is_code_in_dx_list dx pohmri2d_codes (some "PRINCIPAL") none then
        .ok ("Exclusion", ["Exclusion: Principal diagnosis of postoperative hemorrhage/hematoma"], [])
      else if is_code_in_dx_list dx pohmri2d_codes (some "SECONDARY") (some "Y") then
        .ok ("Exclusion", ["Exclusion: Secondary diagnosis of postoperative hemorrhage/hematoma POA=Y"], [])
      else if is_code_in_dx_list dx coagdid_codes none none then
        .ok ("Exclusion", ["Exclusion: Any diagnosis of coagulation disorder"], [])
      else if is_code_in_dx_list dx medbleedd_codes (some "PRINCIPAL") none then
        .ok ("Exclusion", ["Exclusion: Principal diagnosis of medication-related coagulopathy"], [])
      else if is_code_in_dx_list dx medbleedd_codes (some "SECONDARY") (some "Y") then
        .ok ("Exclusion", ["Exclusion: Secondary diagnosis of medication-related coagulopathy POA=Y"], [])
      else
        let timingBound := validate_timing && admit_date.isSome
        let first_or_date := get_first_procedure_date procs or_proc_codes
        let first_hemoth2p_date := get_first_procedure_date procs hemoth2p_codes
        match psi09_timing procs or_proc_codes hemoth2p_codes thrombolyticp_codes timingBound with
        | some line => .ok ("Exclusion", [line], [])
        | none =>
          psi09_numerator dx procs pohmri2d_codes hemoth2p_codes validate_timing timingBound
            first_or_date first_hemoth2p_date

/-- The timing-based dialysis exclusion block of PSI 10 (source lines 712-723). -/
def psi10_timing (procs : List ProcEntry)
    (or_proc_codes dialyip_codes dialy2p_codes : List String)
    (timingBound : Bool) : Option String :=
  if !timingBound then none
  else if optDateLe (get_first_procedure_date procs dialyip_codes)
      (get_first_procedure_date procs or_proc_codes) then
    some "Exclusion: Dialysis procedure before or same day as first OR procedure"
  else if optDateLe (get_first_procedure_date procs dialy2p_codes)
      (get_first_procedure_date procs or_proc_codes) then
    some "Exclusion: Dialysis access procedure before or same day as first OR procedure"
  else none

/-- The numerator section of PSI 10 (source lines 750-776), with the same
unbound-local hazard as PSI 09's numerator. -/
def psi10_numerator (dx : List DxEntry) (procs : List ProcEntry)
    (physidb_codes dialyip_codes : List String)
    (validate_timing timingBound : Bool)
    (first_or_date first_dialy_date : Option Int) : Except EvalErr Result :=
  let numerator_dx_matches := get_matching_dx_info dx physidb_codes (some "SECONDARY") (some "N")
  let has_dialysis_procedure := has_any_procedure procs dialyip_codes
  if !numerator_dx_matches.isEmpty && has_dialysis_procedure then
    if validate_timing then
      if !timingBound then .error .unboundLocal
      else
        match first_or_date, first_dialy_date with
        | some fo, some fd =>
          if fd > fo then
            .ok ("Inclusion",
              ["Numerator: Postop AKI requiring dialysis (DX: "
                ++ headCode numerator_dx_matches ++ ")"],
              [("aki_dx_matches", .strList (numerator_dx_matches.map DxEntry.code)),
               ("has_dialysis_procedure", .bool true)])
          else
            .ok ("Exclusion",
              ["Numerator: Dialysis procedure occurred before or same day as first OR procedure (timing mismatch)"], [])
        | _, _ =>
          .ok ("Exclusion", ["Numerator: Missing procedure dates for timing validation"], [])
    else
      .ok ("Inclusion",
        ["Numerator: Postop AKI requiring dialysis (DX: "
          ++ headCode numerator_dx_matches ++ ") (Timing validation off)"],
        [("aki_dx_matches", .strList (numerator_dx_matches.map DxEntry.code)),
         ("has_dialysis_procedure", .bool true)])
  else if !numerator_dx_matches.isEmpty then
    .ok ("Exclusion", ["Numerator: AKI diagnosis found, but no qualifying dialysis procedure"], [])
  else if has_dialysis_procedure then
    .ok ("Exclusion", ["Numerator: Dialysis procedure found, but no qualifying AKI diagnosis"], [])
  else
    .ok ("Exclusion",
      ["No qualifying postop AKI diagnosis or dialysis procedure found for numerator"], [])

/-- PSI 10 - Postoperative Acute Kidney Injury Requiring Dialysis (source
lines 680-776). Shares the unbound-local hazard of PSI 09: `first_or_date`
and `first_dialy_date` are assigned only when timing validation runs with a
non-null admission date. -/
def psi10 (age : Option PyVal) (ms_drg : String) (dx : List DxEntry)
    (procs : List ProcEntry) (atype : Option PyVal) (admit_date : Option Int)
    (validate_timing : Bool) (cs : CodeSets) : Except EvalErr Result :=
  match pyGeInt age 18 with
  | .error e => .error e
  | .ok ge =>
    let is_elective_surgical_drg := (csGet cs "SURGI2R_CODES").contains ms_drg && pyEqInt atype 3
    let or_proc_codes := csGet cs "ORPROC_CODES"
    let has_or_procedure := has_any_procedure procs or_proc_codes
    if !(ge && is_elective_surgical_drg && has_or_procedure) then
      .ok ("Exclusion", ["Population Exclusion: Not elective surgical DRG (>=18) or no OR procedure"], [])
    else
      let physidb_codes := csGet cs "PHYSIDB_CODES"
      let dialyip_codes := csGet cs "DIALYIP_CODES"
      let dialy2p_codes := csGet cs "DIALY2P_CODES"
      let cardiid_codes := csGet cs "CARDIID_CODES"
      let cardrid_codes := csGet cs "CARDRID_CODES"
      let shockid_codes := csGet cs "SHOCKID_CODES"
      let crenlfd_codes := csGet cs "CRENLFD_CODES"
      let urinaryobsid_codes := csGet cs "URINARYOBSID_CODES"
      let solkidd_codes := csGet cs "SOLKIDD_CODES"
      let pneumphrep_codes := csGet cs "PNEPHREP_CODES"
      if is_code_in_dx_list dx physidb_codes (some "PRINCIPAL") none then
        .ok ("Exclusion", ["Exclusion: Principal diagnosis of acute kidney failure"], [])
      else if is_code_in_dx_list dx physidb_codes (some "SECONDARY") (some "Y") then
        .ok ("Exclusion", ["Exclusion: Secondary diagnosis of acute kidney failure POA=Y"], [])
      else
        let timingBound := validate_timing && admit_date.isSome
        let first_or_date := get_first_procedure_date procs or_proc_codes
        let first_dialy_date := get_first_procedure_date procs dialyip_codes
        match psi10_timing procs or_proc_codes dialyip_codes dialy2p_codes timingBound with
        | some line => .ok ("Exclusion", [line], [])
        | none =>
          let cardiac_shock_dx_codes := cardiid_codes ++ cardrid_codes ++ shockid_codes
          if is_code_in_dx_list dx cardiac_shock_dx_codes (some "PRINCIPAL") none
              || is_code_in_dx_list dx cardiac_shock_dx_codes (some "SECONDARY") (some "Y") then
            .ok ("Exclusion", ["Exclusion: Principal/POA diagnosis of cardiac arrest, dysrhythmia, or shock"], [])
          else if is_code_in_dx_list dx crenlfd_codes (some "PRINCIPAL") none
              || is_code_in_dx_list dx crenlfd_codes (some "SECONDARY") (some "Y") then
            .ok ("Exclusion", ["Exclusion: Principal/POA diagnosis of CKD stage 5 or ESRD"], [])
          else if is_code_in_dx_list dx urinaryobsid_codes (some "PRINCIPAL") none then
            .ok ("Exclusion", ["Exclusion: Principal diagnosis of urinary tract obstruction"], [])
          else if is_code_in_dx_list dx solkidd_codes none (some "Y")
              && has_any_procedure procs pneumphrep_codes then
            .ok ("Exclusion", ["Exclusion: Solitary kidney (POA) with partial/total nephrectomy"], [])
          else
            psi10_numerator dx procs physidb_codes dialyip_codes validate_timing timingBound
              first_or_date first_dialy_date

/-- The four-criterion numerator of PSI 11 (source lines 856-902).
Unlike PSI 09/10, it recomputes `first_or_date` unconditionally. -/
def psi11_numerator (dx : List DxEntry) (procs : List ProcEntry)
    (or_proc_codes acurf2d_codes pr9672p_codes pr9671p_codes pr9604p_codes : List String)
    (validate_timing : Bool) : Except EvalErr Result :=
  let first_or_date := get_first_procedure_date procs or_proc_codes
  let crit1_met := is_code_in_dx_list dx acurf2d_codes (some "SECONDARY") (some "N")
  let crit2_met :=
    if validate_timing then
      optGe (get_last_procedure_date procs pr9672p_codes) first_or_date
    else has_any_procedure procs pr9672p_codes
  let crit3_met :=
    if validate_timing then
      optGe (get_last_procedure_date procs pr9671p_codes) (first_or_date.map (· + 2 * 86400))
    else has_any_procedure procs pr9671p_codes
  let crit4_met :=
    if validate_timing then
      optGe (get_last_procedure_date procs pr9604p_codes) (first_or_date.map (· + 86400))
    else has_any_procedure procs pr9604p_codes
  if crit1_met || crit2_met || crit3_met || crit4_met then
    .ok ("Inclusion",
      ["Numerator: Patient meets at least one postoperative respiratory complication criterion."],
      [("crit1_met", .bool crit1_met), ("crit2_met", .bool crit2_met),
       ("crit3_met", .bool crit3_met), ("crit4_met", .bool crit4_met)])
  else
    .ok ("Exclusion", ["No qualifying postoperative respiratory failure criteria met for numerator."], [])

/-- The remaining PSI 11 exclusion gates after the tracheostomy timing check
(source lines 830-854), followed by the numerator. -/
def psi11_rest (dx : List DxEntry) (procs : List ProcEntry) (mdc : Option PyVal)
    (or_proc_codes : List String) (validate_timing : Bool) (cs : CodeSets) :
    Except EvalErr Result :=
  if is_code_in_dx_list dx (csGet cs "MALHYPD_CODES") none none then
    .ok ("Exclusion", ["Exclusion: Any diagnosis of malignant hyperthermia"], [])
  else if is_code_in_dx_list dx (csGet cs "NEUROMD_CODES") none (some "Y") then
    .ok ("Exclusion", ["Exclusion: Any diagnosis of neuromuscular disorder POA=Y"], [])
  else if is_code_in_dx_list dx (csGet cs "DGNEUID_CODES") none (some "Y") then
    .ok ("Exclusion", ["Exclusion: Any diagnosis of degenerative neurological disorder POA=Y"], [])
  else if has_any_procedure procs (csGet cs "NUCRANP_CODES" ++ csGet cs "PRESOPP_CODES"
      ++ csGet cs "LUNGCIP_CODES" ++ csGet cs "LUNGTRANSP_CODES") then
    .ok ("Exclusion", ["Exclusion: Patient underwent high-risk surgery (e.g., head/neck, esophageal, lung transplant)"], [])
  else if pyEqInt mdc 4 then
    .ok ("Exclusion", ["Exclusion: MDC 4 (Respiratory System Disorders)"], [])
  else
    psi11_numerator dx procs or_proc_codes (csGet cs "ACURF2D_CODES")
      (csGet cs "PR9672P_CODES") (csGet cs "PR9671P_CODES") (csGet cs "PR9604P_CODES")
      validate_timing

/-- PSI 11 - Postoperative Respiratory Failure (source lines 779-902). -/
def psi11 (age : Option PyVal) (ms_drg : String) (dx : List DxEntry)
    (procs : List ProcEntry) (atype : Option PyVal) (mdc : Option PyVal)
    (validate_timing : Bool) (cs : CodeSets) : Except EvalErr Result :=
  match pyGeInt age 18 with
  | .error e => .error e
  | .ok ge =>
    let is_elective_surgical_drg := (csGet cs "SURGI2R_CODES").contains ms_drg && pyEqInt atype 3
    let or_proc_codes := csGet cs "ORPROC_CODES"
    let has_or_procedure := has_any_procedure procs or_proc_codes
    if !(ge && is_elective_surgical_drg && has_or_procedure) then
      .ok ("Exclusion", ["Population Exclusion: Not elective surgical DRG (>=18) or no OR procedure"], [])
    else
      let acurf3d_codes := csGet cs "ACURF3D_CODES"
      let trachid_codes := csGet cs "TRACHID_CODES"
      let trachip_codes := csGet cs "TRACHIP_CODES"
      if is_code_in_dx_list dx acurf3d_codes (some "PRINCIPAL") none then
        .ok ("Exclusion", ["Exclusion: Principal diagnosis of acute respiratory failure"], [])
      else if is_code_in_dx_list dx acurf3d_codes (some "SECONDARY") (some "Y") then
        .ok ("Exclusion", ["Exclusion: Secondary diagnosis of acute respiratory failure POA=Y"], [])
      else if is_code_in_dx_list dx trachid_codes none (some "Y") then
        .ok ("Exclusion", ["Exclusion: Any diagnosis of tracheostomy POA=Y"], [])
      else if count_procedures_of_type procs or_proc_codes == 1
          && has_any_procedure procs trachip_codes then
        .ok ("Exclusion", ["Exclusion: Only OR procedure is tracheostomy"], [])
      else if validate_timing
          && optLt (get_first_procedure_date procs trachip_codes)
                   (get_first_procedure_date procs or_proc_codes) then
        .ok ("Exclusion", ["Exclusion: Tracheostomy procedure before first OR procedure"], [])
      else
        psi11_rest dx procs mdc or_proc_codes validate_timing cs

/-- The timing-based exclusion block of PSI 12 (source lines 951-976). -/
def psi12_timing (procs : List ProcEntry)
    (or_proc_codes venacip_codes thromp_codes : List String)
    (validate_timing : Bool) (admit_date : Option Int) : Option String :=
  match validate_timing, admit_date with
  | true, some ad =>
    let first_or_date := get_first_procedure_date procs or_proc_codes
    if optDateLe (get_first_procedure_date procs venacip_codes) first_or_date then
      some "Exclusion: Vena cava interruption before/same day as first OR procedure"
    else if optDateLe (get_first_procedure_date procs thromp_codes) first_or_date then
      some "Exclusion: Thrombectomy before/same day as first OR procedure"
    else
      let all_or_procs := (procs.filter (fun p => or_proc_codes.contains p.code)).map ProcEntry.code
      if all_or_procs.all (fun p => (venacip_codes ++ thromp_codes).contains p)
          && all_or_procs.length > 0 then
        some "Exclusion: Only OR procedures are vena cava interruption/thrombectomy"
      else
        match first_or_date with
        | some fo =>
          if daysBetween fo ad ≥ 10 then
            some ("Exclusion: First OR procedure on/after 10th day of admission (Day "
              ++ toString (daysBetween fo ad) ++ ")")
          else none
        | none => none
  | _, _ => none

/-- PSI 12 - Perioperative Pulmonary Embolism or Deep Vein Thrombosis
(source lines 905-987). -/
def psi12 (age : Option PyVal) (ms_drg : String) (dx : List DxEntry)
    (procs : List ProcEntry) (admit_date : Option Int) (validate_timing : Bool)
    (cs : CodeSets) : Except EvalErr Result :=
  match pyGeInt age 18 with
  | .error e => .error e
  | .ok ge =>
    let is_surgical_drg := (csGet cs "SURGI2R_CODES").contains ms_drg
    let or_proc_codes := csGet cs "ORPROC_CODES"
    let has_or_procedure := has_any_procedure procs or_proc_codes
    if !(ge && is_surgical_drg && has_or_procedure) then
      .ok ("Exclusion", ["Population Exclusion: Not surgical DRG (>=18) or no OR procedure"], [])
    else
      let deepvib_codes := csGet cs "DEEPVIB_CODES"
      let pulmoid_codes := csGet cs "PULMOID_CODES"
      let hitd_codes := csGet cs "HITD_CODES"
      let neurtrad_codes := csGet cs "NEURTRAD_CODES"
      let venacip_codes := csGet cs "VENACIP_CODES"
      let thromp_codes := csGet cs "THROMP_CODES"
      let ecmop_codes := csGet cs "ECMOP_CODES"
      if is_code_in_dx_list dx deepvib_codes (some "PRINCIPAL") none
          || is_code_in_dx_list dx pulmoid_codes (some "PRINCIPAL") none then
        .ok ("Exclusion", ["Exclusion: Principal diagnosis of DVT or PE"], [])
      else if is_code_in_dx_list dx deepvib_codes (some "SECONDARY") (some "Y")
          || is_code_in_dx_list dx pulmoid_codes (some "SECONDARY") (some "Y") then
        .ok ("Exclusion", ["Exclusion: Secondary diagnosis of DVT or PE POA=Y"], [])
      else if is_code_in_dx_list dx hitd_codes (some "SECONDARY") none then
        .ok ("Exclusion", ["Exclusion: Secondary diagnosis of heparin-induced thrombocytopenia"], [])
      else if is_code_in_dx_list dx neurtrad_codes none (some "Y") then
        .ok ("Exclusion", ["Exclusion: Any diagnosis of acute brain or spinal injury POA=Y"], [])
      else if has_any_procedure procs ecmop_codes then
        .ok ("Exclusion", ["Exclusion: Patient underwent ECMO procedure"], [])
      else
        match psi12_timing procs or_proc_codes venacip_codes thromp_codes validate_timing admit_date with
        | some line => .ok ("Exclusion", [line], [])
        | none =>
          let dvt_pe_numerator_codes := deepvib_codes ++ pulmoid_codes
          let numerator_matches := get_matching_dx_info dx dvt_pe_numerator_codes (some "SECONDARY") (some "N")
          if !numerator_matches.isEmpty then
            .ok ("Inclusion",
              ["Numerator: Perioperative DVT/PE found (DX: " ++ headCode numerator_matches ++ ", POA: N)"],
              [("dvt_pe_matches", .strList (numerator_matches.map DxEntry.code))])
          else
            .ok ("Exclusion", ["No qualifying perioperative DVT/PE diagnosis found for numerator"], [])

/-- The day-10 timing exclusion of PSI 13 (source lines 1024-1029). -/
def psi13_timing (procs : List ProcEntry) (or_proc_codes : List String)
    (validate_timing : Bool) (admit_date : Option Int) : Option String :=
  match validate_timing, admit_date with
  | true, some ad =>
    match get_first_procedure_date procs or_proc_codes with
    | some fo =>
      if daysBetween fo ad ≥ 10 then
        some ("Exclusion: First OR procedure on/after 10th day of admission (Day "
          ++ toString (daysBetween fo ad) ++ ")")
      else none
    | none => none
  | _, _ => none

/-- PSI 13 - Postoperative Sepsis (source lines 990-1043). The immune-status
risk category is computed only after all exclusion gates have passed. -/
def psi13 (age : Option PyVal) (ms_drg : String) (dx : List DxEntry)
    (procs : List ProcEntry) (atype : Option PyVal) (admit_date : Option Int)
    (validate_timing : Bool) (cs : CodeSets) : Except EvalErr Result :=
  match pyGeInt age 18 with
  | .error e => .error e
  | .ok ge =>
    let is_elective_surgical_drg := (csGet cs "SURGI2R_CODES").contains ms_drg && pyEqInt atype 3
    let or_proc_codes := csGet cs "ORPROC_CODES"
    let has_or_procedure := has_any_procedure procs or_proc_codes
    if !(ge && is_elective_surgical_drg && has_or_procedure) then
      .ok ("Exclusion", ["Population Exclusion: Not elective surgical DRG (>=18) or no OR procedure"], [])
    else
      let sepsi2d_codes := csGet cs "SEPTI2D_CODES"
      let infecid_codes := csGet cs "INFECID_CODES"
      if is_code_in_dx_list dx sepsi2d_codes (some "PRINCIPAL") none then
        .ok ("Exclusion", ["Exclusion: Principal diagnosis of sepsis"], [])
      else if is_code_in_dx_list dx sepsi2d_codes (some "SECONDARY") (some "Y") then
        .ok ("Exclusion", ["Exclusion: Secondary diagnosis of sepsis POA=Y"], [])
      else if is_code_in_dx_list dx infecid_codes (some "PRINCIPAL") none then
        .ok ("Exclusion", ["Exclusion: Principal diagnosis of general infection"], [])
      else if is_code_in_dx_list dx infecid_codes (some "SECONDARY") (some "Y") then
        .ok ("Exclusion", ["Exclusion: Secondary diagnosis of general infection POA=Y"], [])
      else
        match psi13_timing procs or_proc_codes validate_timing admit_date with
        | some line => .ok ("Exclusion", [line], [])
        | none =>
          let risk_category := classify_immune_compromise dx procs cs
          let numerator_matches := get_matching_dx_info dx sepsi2d_codes (some "SECONDARY") (some "N")
          if !numerator_matches.isEmpty then
            .ok ("Inclusion",
              ["Numerator: Postoperative sepsis found (DX: " ++ headCode numerator_matches ++ ", POA: N)",
               "Risk Category: " ++ risk_category],
              [("sepsis_matches", .strList (numerator_matches.map DxEntry.code)),
               ("risk_category", .str risk_category)])
          else
            .ok ("Exclusion",
              ["No qualifying postoperative sepsis diagnosis found for numerator",
               "Risk Category: " ++ risk_category],
              [("risk_category", .str risk_category)])

/-- The reclosure timing exclusion of PSI 14 (source lines 1077-1089). -/
def psi14_timing (procs : List ProcEntry)
    (abdomipopen_codes abdomipother_codes recloip_codes : List String)
    (validate_timing : Bool) : Option String :=
  if validate_timing then
    let first_open_abdom_date := get_first_procedure_date procs abdomipopen_codes
    let first_other_abdom_date := get_first_procedure_date procs abdomipother_codes
    match get_last_procedure_date procs recloip_codes with
    | some lr =>
      if optDateLe (some lr) first_open_abdom_date then
        some "Exclusion: Reclosure before/same day as first open abdominopelvic surgery"
      else if optDateLe (some lr) first_other_abdom_date then
        some "Exclusion: Reclosure before/same day as first non-open abdominopelvic surgery"
      else none
    | none => none
  else none

/-- PSI 14 - Postoperative Wound Dehiscence (source lines 1046-1114). -/
def psi14 (age : Option PyVal) (dx : List DxEntry) (procs : List ProcEntry)
    (length_of_stay : Option PyVal) (validate_timing : Bool) (cs : CodeSets) :
    Except EvalErr Result :=
  match pyGeInt age 18 with
  | .error e => .error e
  | .ok ge =>
    let abdomipopen_codes := csGet cs "ABDOMIPOPEN_CODES"
    let abdomipother_codes := csGet cs "ABDOMIPOTHER_CODES"
    let has_open_abdominal := has_any_procedure procs abdomipopen_codes
    let has_other_abdominal := has_any_procedure procs abdomipother_codes
    if !(ge && (has_open_abdominal || has_other_abdominal)) then
      .ok ("Exclusion", ["Population Exclusion: Not age >= 18 or no abdominopelvic surgery"], [])
    else
      let recloip_codes := csGet cs "RECLOIP_CODES"
      let abwallcd_codes := csGet cs "ABWALLCD_CODES"
      if is_code_in_dx_list dx abwallcd_codes (some "PRINCIPAL") none then
        .ok ("Exclusion", ["Exclusion: Principal diagnosis of wound disruption"], [])
      else if is_code_in_dx_list dx abwallcd_codes (some "SECONDARY") (some "Y") then
        .ok ("Exclusion", ["Exclusion: Secondary diagnosis of wound disruption POA=Y"], [])
      else
        match pyNotnaAndLt length_of_stay 2 with
        | .error e => .error e
        | .ok losLt =>
          if losLt then
            .ok ("Exclusion", ["Exclusion: Length of stay < 2 days (" ++ pyStrOpt length_of_stay ++ ")"], [])
          else
            match psi14_timing procs abdomipopen_codes abdomipother_codes recloip_codes validate_timing with
            | some line => .ok ("Exclusion", [line], [])
            | none =>
              let has_reclosure_procedure := has_any_procedure procs recloip_codes
              let wound_disruption_dx_matches := get_matching_dx_info dx abwallcd_codes none (some "N")
              if has_reclosure_procedure && !wound_disruption_dx_matches.isEmpty then
                let stratum := if has_open_abdominal then "open_approach" else "non_open_approach"
                .ok ("Inclusion",
                  ["Numerator: Postoperative wound dehiscence (DX: "
                     ++ headCode wound_disruption_dx_matches ++ ") with reclosure procedure",
                   "Stratum: " ++ stratum],
                  [("has_reclosure_procedure", .bool true),
                   ("wound_disruption_dx_matches", .strList (wound_disruption_dx_matches.map DxEntry.code)),
                   ("stratum", .str stratum)])
              else if has_reclosure_procedure then
                .ok ("Exclusion",
                  ["Numerator: Reclosure procedure found, but no qualifying wound disruption diagnosis"], [])
              else if !wound_disruption_dx_matches.isEmpty then
                .ok ("Exclusion",
                  ["Numerator: Wound disruption diagnosis found, but no reclosure procedure"], [])
              else
                .ok ("Exclusion", ["No qualifying wound dehiscence criteria met for numerator"], [])

/-- PSI 15 - Abdominopelvic Accidental Puncture or Laceration (source lines
1117-1193). A per-organ POA block appends an exclusion rationale line but
does not return: other organs can still qualify for the numerator. -/
def psi15 (age : Option PyVal) (ms_drg : String) (dx : List DxEntry)
    (procs : List ProcEntry) (cs : CodeSets)
    (organs : OrganSystem → List String × List String) : Except EvalErr Result :=
  match pyGeInt age 18 with
  | .error e => .error e
  | .ok ge =>
    let is_surgical_or_medical := (csGet cs "SURGI2R_CODES").contains ms_drg
      || (csGet cs "MEDIC2R_CODES").contains ms_drg
    let abdomi15p_codes := csGet cs "ABDOMI15P_CODES"
    let has_abdominopelvic_procedure := has_any_procedure procs abdomi15p_codes
    if !(ge && is_surgical_or_medical && has_abdominopelvic_procedure) then
      .ok ("Exclusion", ["Population Exclusion: Not surgical/medical DRG (>=18) or no abdominopelvic procedure"], [])
    else
      match get_first_procedure_date procs abdomi15p_codes with
      | none =>
        .ok ("Exclusion", ["Exclusion: Missing index abdominopelvic procedure date"], [])
      | some index_procedure_date =>
        let all_injury_codes := organList.foldl (fun acc o => acc ++ (organs o).1) []
        if is_code_in_dx_list dx all_injury_codes (some "PRINCIPAL") none then
          .ok ("Exclusion", ["Exclusion: Principal diagnosis of accidental puncture/laceration for any organ"], [])
        else
          let loopRes := organList.foldl (psi15_organ_step organs dx procs index_procedure_date)
            { rat := [], omap := [], qual := [] }
          let risk_category := classify_procedure_complexity_psi15 procs cs index_procedure_date
          if !loopRes.qual.isEmpty then
            .ok ("Inclusion",
              loopRes.rat
                ++ ["Numerator: Accidental puncture/laceration found for organs: " ++ pyJoin ", " loopRes.qual,
                    "Risk Category: " ++ risk_category],
              [("organ_analysis_results", .organMap loopRes.omap),
               ("qualifying_organs", .strList loopRes.qual),
               ("risk_category", .str risk_category)])
          else
            .ok ("Exclusion",
              loopRes.rat
                ++ ["No qualifying accidental puncture/laceration (injury + procedure + timing + organ match) found for numerator",
                    "Risk Category: " ++ risk_category],
              [("organ_analysis_results", .organMap loopRes.omap),
               ("risk_category", .str risk_category)])

/-- DRG resolution (source lines 336-346): prefer column `DRG`, falling back to
`MS-DRG` when `DRG` is NA or blank; coerce to an integer, `none` on failure. -/
def resolveDrg (r : Row) : Option Int :=
  let d0 := r.drg
  let d1 := if pdIsna d0 || pyStrip (pyStrOpt d0) == "" then r.msdrg else d0
  tryInt d1

/-- The required-field completeness check (source lines 367-373): the names of
the missing fields, in dictionary insertion order. A field is missing when it
is NA or its string form is blank. -/
def requiredMissing (r : Row) : List String :=
  (["SEX", "AGE", "DQTR", "YEAR", "DX1"].zip
    [r.sex, r.age, r.dqtr, r.year, pyOr (r.dx 1) r.pdx]).filterMap
    (fun kv => if pdIsna kv.2 || pyStrip (pyStrOpt kv.2) == "" then some kv.1 else none)

/-- The per-PSI dispatch of `evaluate_psi_comprehensive` (the `elif` chain of
source lines 394-1196), reached once every common gate has passed. -/
def psi_dispatch (psi_name : String) (age : Option PyVal) (ms_drg : String)
    (dx_list : List DxEntry) (proc_list : List ProcEntry)
    (atype mdc : Option PyVal) (admit_date : Option Int)
    (length_of_stay : Option PyVal) (cs : CodeSets)
    (organs : OrganSystem → List String × List String)
    (validate_timing : Bool) : Except EvalErr Result :=
  match psi_name with
  | "PSI_05" => psi05 age ms_drg dx_list proc_list cs
  | "PSI_06" => psi06 age ms_drg dx_list proc_list cs
  | "PSI_07" => psi07 age ms_drg dx_list proc_list length_of_stay cs
  | "PSI_08" => psi08 age ms_drg dx_list proc_list cs
  | "PSI_09" => psi09 age ms_drg dx_list proc_list admit_date validate_timing cs
  | "PSI_10" => psi10 age ms_drg dx_list proc_list atype admit_date validate_timing cs
  | "PSI_11" => psi11 age ms_drg dx_list proc_list atype mdc validate_timing cs
  | "PSI_12" => psi12 age ms_drg dx_list proc_list admit_date validate_timing cs
  | "PSI_13" => psi13 age ms_drg dx_list proc_list atype admit_date validate_timing cs
  | "PSI_14" => psi14 age dx_list proc_list length_of_stay validate_timing cs
  | "PSI_15" => psi15 age ms_drg dx_list proc_list cs organs
  | _ =>
    .ok ("Exclusion", ["PSI " ++ psi_name ++ " logic not yet fully implemented or recognized."], [])

/-- Embedding of `evaluate_psi_comprehensive` (source lines 324-1198): field
normalisation, the common data-quality / MDC / age gates, then dispatch to the
per-PSI evaluator. The `debug_mode` flag only controls UI warnings in the
source and never affects the returned triple. -/
def evaluate_psi_comprehensive (row : Row) (psi_name : String) (cs : CodeSets)
    (organs : OrganSystem → List String × List String)
    (_debug_mode validate_timing : Bool) : Except EvalErr Result :=
  let age := row.age
  let ms_drg := pyStrip (pyStrD row.msdrg "")
  let atype := row.atype
  let mdc := row.mdc
  let drg_value := resolveDrg row
  let admit_date := parse_date_safe (pyOr row.admissionDate row.admissionDate2)
  let length_of_stay := pyOr row.lengthOfStay row.lengthOfStay2
  let dx_list := extract_dx_codes_enhanced row
  let proc_list := extract_proc_info_enhanced row
  if drg_value == some 999 then
    .ok ("Exclusion", ["Data Quality: Ungroupable DRG (999)"], [])
  else
    let missing := requiredMissing row
    if !missing.isEmpty then
      .ok ("Exclusion",
        ["Data Quality: Missing required fields (" ++ pyJoin ", " missing ++ ")"], [])
    else if is_code_in_dx_list dx_list (csGet cs "MDC14PRINDX_CODES") (some "PRINCIPAL") none then
      .ok ("Exclusion", ["Population Exclusion: Principal diagnosis in MDC 14 (Obstetric)"], [])
    else if is_code_in_dx_list dx_list (csGet cs "MDC15PRINDX_CODES") (some "PRINCIPAL") none then
      .ok ("Exclusion", ["Population Exclusion: Principal diagnosis in MDC 15 (Neonatal)"], [])
    else
      match pyLtInt age 18 with
      | .error e => .error e
      | .ok lt =>
        if lt then
          .ok ("Exclusion", ["Age Exclusion: Patient age " ++ pyStrOpt age ++ " < 18 years"], [])
        else
          psi_dispatch psi_name age ms_drg dx_list proc_list atype mdc admit_date
            length_of_stay cs organs validate_timing

/-- Status projection of an evaluation outcome. -/
def statusOf (r : Except EvalErr Result) : Option String :=
  match r with
  | .ok res => some res.1
  | .error _ => none

/-- Whether the first list is an initial segment of the second. -/
def listStarts : List Char → List Char → Bool
  | [], _ => true
  | _ :: _, [] => false
  | p :: ps, c :: cs => p == c && listStarts ps cs

/-- Whether string `s` starts with `p`. -/
def strStarts (s p : String) : Bool := listStarts p.data s.data

/-- A rationale line recording an exclusion: the source prefixes every
short-circuiting gate line with "Exclusion:", "Population Exclusion:" or
"Data Quality:". -/
def is_exclusion_line (s : String) : Bool :=
  strStarts s "Exclusion:" || strStarts s "Population Exclusion:" || strStarts s "Data Quality:"

/-- A PSI-15 per-organ POA block line. -/
def is_poa_block_line (s : String) : Bool := strStarts s "Exclusion: POA injury ("

/-- The length-of-stay exclusion line of PSI 07 / PSI 14. -/
def is_los_line (s : String) : Bool := strStarts s "Exclusion: Length of stay < 2 days"

theorem str_data_append (s t : String) : (s ++ t).data = s.data ++ t.data := rfl

theorem str_append_assoc (a b c : String) : (a ++ b) ++ c = a ++ (b ++ c) :=
  congrArg String.mk (List.append_assoc a.data b.data c.data)

theorem listStarts_nil (d : List Char) : listStarts [] d = true := rfl

theorem listStarts_refl (l : List Char) : listStarts l l = true := by
  induction l with
  | nil => rfl
  | cons c cs ih => simp [listStarts, ih]

theorem listStarts_append (p l d : List Char) :
    listStarts p (l ++ d) = (listStarts (p.take l.length) l && listStarts (p.drop l.length) d) := by
  induction l generalizing p with
  | nil => simp [listStarts]
  | cons c cs ih =>
    cases p with
    | nil => simp [listStarts]
    | cons q qs => simp [listStarts, ih, Bool.and_assoc]

theorem strStarts_append_false (L d p : String)
    (h : listStarts (p.data.take L.data.length) L.data = false) :
    strStarts (L ++ d) p = false := by
  unfold strStarts
  rw [str_data_append, listStarts_append, h]
  rfl

theorem strStarts_self_append (p d : String) : strStarts (p ++ d) p = true := by
  unfold strStarts
  rw [str_data_append, listStarts_append, List.take_length, List.drop_length,
    listStarts_refl, listStarts_nil]
  rfl

theorem isExcl_append_false (L d : String)
    (h1 : listStarts ("Exclusion:".data.take L.data.length) L.data = false)
    (h2 : listStarts ("Population Exclusion:".data.take L.data.length) L.data = false)
    (h3 : listStarts ("Data Quality:".data.take L.data.length) L.data = false) :
    is_exclusion_line (L ++ d) = false := by
  unfold is_exclusion_line
  rw [strStarts_append_false L d _ h1, strStarts_append_false L d _ h2,
    strStarts_append_false L d _ h3]
  rfl

theorem isLos_append_false (L d : String)
    (h : listStarts ("Exclusion: Length of stay < 2 days".data.take L.data.length) L.data = false) :
    is_los_line (L ++ d) = false :=
  strStarts_append_false L d _ h

@[simp] theorem exl_num05 (d : String) :
    is_exclusion_line ("Numerator: Retained surgical item found (DX: " ++ d ++ ", POA: N)") = false := by
  rw [str_append_assoc]; exact isExcl_append_false _ _ (by decide) (by decide) (by decide)

@[simp] theorem exl_num06 (d : String) :
    is_exclusion_line ("Numerator: Iatrogenic pneumothorax found (DX: " ++ d ++ ", POA: N)") = false := by
  rw [str_append_assoc]; exact isExcl_append_false _ _ (by decide) (by decide) (by decide)

@[simp] theorem exl_num07 (d : String) :
    is_exclusion_line ("Numerator: CVC-related BSI found (DX: " ++ d ++ ", POA: N)") = false := by
  rw [str_append_assoc]; exact isExcl_append_false _ _ (by decide) (by decide) (by decide)

@[simp] theorem exl_num08hip (d : String) :
    is_exclusion_line ("Numerator: Hip fracture found (DX: " ++ d ++ ", POA: N)") = false := by
  rw [str_append_assoc]; exact isExcl_append_false _ _ (by decide) (by decide) (by decide)

@[simp] theorem exl_num08oth (d : String) :
    is_exclusion_line ("Numerator: Other fracture found (DX: " ++ d ++ ", POA: N)") = false := by
  rw [str_append_assoc]; exact isExcl_append_false _ _ (by decide) (by decide) (by decide)

@[simp] theorem exl_num09a (d : String) :
    is_exclusion_line ("Numerator: Postop hemorrhage/hematoma with treatment (DX: " ++ d ++ ")") = false := by
  rw [str_append_assoc]; exact isExcl_append_false _ _ (by decide) (by decide) (by decide)

@[simp] theorem exl_num09b (d : String) :
    is_exclusion_line ("Numerator: Postop hemorrhage/hematoma with treatment (DX: " ++ d
      ++ ") (Timing validation off)") = false := by
  rw [str_append_assoc]; exact isExcl_append_false _ _ (by decide) (by decide) (by decide)

@[simp] theorem exl_num10a (d : String) :
    is_exclusion_line ("Numerator: Postop AKI requiring dialysis (DX: " ++ d ++ ")") = false := by
  rw [str_append_assoc]; exact isExcl_append_false _ _ (by decide) (by decide) (by decide)

@[simp] theorem exl_num10b (d : String) :
    is_exclusion_line ("Numerator: Postop AKI requiring dialysis (DX: " ++ d
      ++ ") (Timing validation off)") = false := by
  rw [str_append_assoc]; exact isExcl_append_false _ _ (by decide) (by decide) (by decide)

@[simp] theorem exl_num11 :
    is_exclusion_line "Numerator: Patient meets at least one postoperative respiratory complication criterion." = false := by
  decide

@[simp] theorem exl_num12 (d : String) :
    is_exclusion_line ("Numerator: Perioperative DVT/PE found (DX: " ++ d ++ ", POA: N)") = false := by
  rw [str_append_assoc]; exact isExcl_append_false _ _ (by decide) (by decide) (by decide)

@[simp] theorem exl_num13 (d : String) :
    is_exclusion_line ("Numerator: Postoperative sepsis found (DX: " ++ d ++ ", POA: N)") = false := by
  rw [str_append_assoc]; exact isExcl_append_false _ _ (by decide) (by decide) (by decide)

@[simp] theorem exl_risk (d : String) :
    is_exclusion_line ("Risk Category: " ++ d) = false :=
  isExcl_append_false _ _ (by decide) (by decide) (by decide)

@[simp] theorem exl_num14 (d : String) :
    is_exclusion_line ("Numerator: Postoperative wound dehiscence (DX: " ++ d
      ++ ") with reclosure procedure") = false := by
  rw [str_append_assoc]; exact isExcl_append_false _ _ (by decide) (by decide) (by decide)

@[simp] theorem exl_stratum (d : String) :
    is_exclusion_line ("Stratum: " ++ d) = false :=
  isExcl_append_false _ _ (by decide) (by decide) (by decide)

@[simp] theorem exl_stratum_open : is_exclusion_line "Stratum: open_approach" = false := by decide

@[simp] theorem exl_stratum_non : is_exclusion_line "Stratum: non_open_approach" = false := by decide

@[simp] theorem exl_num15 (d : String) :
    is_exclusion_line ("Numerator: Accidental puncture/laceration found for organs: " ++ d) = false :=
  isExcl_append_false _ _ (by decide) (by decide) (by decide)

@[simp] theorem poa_block_line_true (c v : String) :
    is_poa_block_line ("Exclusion: POA injury (" ++ c ++ ") with matching related procedure for "
      ++ v) = true := by
  rw [str_append_assoc, str_append_assoc]; exact strStarts_self_append _ _

/-- The result invariant shared by every evaluator: the status is "Exclusion"
or "Inclusion", and an Inclusion rationale contains no exclusion line except
PSI-15 per-organ POA block lines. -/
def okInv (r : Except EvalErr Result) : Prop :=
  ∀ st rat det, r = .ok (st, rat, det) →
    (st = "Exclusion" ∨ st = "Inclusion") ∧
    (st = "Inclusion" → ∀ l ∈ rat, is_exclusion_line l = true → is_poa_block_line l = true)

theorem psi05_inv (age : Option PyVal) (ms_drg : String) (dx : List DxEntry)
    (procs : List ProcEntry) (cs : CodeSets) : okInv (psi05 age ms_drg dx procs cs) := by
  intro st rat det h
  simp only [psi05] at h
  repeat' split at h
  all_goals simp only [Except.ok.injEq, Prod.mk.injEq, reduceCtorEq] at h
  all_goals obtain ⟨rfl, rfl, rfl⟩ := h
  all_goals simp_all

theorem psi06_inv (age : Option PyVal) (ms_drg : String) (dx : List DxEntry)
    (procs : List ProcEntry) (cs : CodeSets) : okInv (psi06 age ms_drg dx procs cs) := by
  intro st rat det h
  simp only [psi06] at h
  repeat' split at h
  all_goals simp only [Except.ok.injEq, Prod.mk.injEq, reduceCtorEq] at h
  all_goals obtain ⟨rfl, rfl, rfl⟩ := h
  all_goals simp_all

theorem psi07_inv (age : Option PyVal) (ms_drg : String) (dx : List DxEntry)
    (procs : List ProcEntry) (los : Option PyVal) (cs : CodeSets) :
    okInv (psi07 age ms_drg dx procs los cs) := by
  intro st rat det h
  simp only [psi07] at h
  repeat' split at h
  all_goals simp only [Except.ok.injEq, Prod.mk.injEq, reduceCtorEq] at h
  all_goals obtain ⟨rfl, rfl, rfl⟩ := h
  all_goals simp_all

theorem psi08_inv (age : Option PyVal) (ms_drg : String) (dx : List DxEntry)
    (procs : List ProcEntry) (cs : CodeSets) : okInv (psi08 age ms_drg dx procs cs) := by
  intro st rat det h
  simp only [psi08] at h
  repeat' split at h
  all_goals simp only [Except.ok.injEq, Prod.mk.injEq, reduceCtorEq] at h
  all_goals obtain ⟨rfl, rfl, rfl⟩ := h
  all_goals simp_all

theorem psi09_numerator_inv (dx : List DxEntry) (procs : List ProcEntry)
    (pohmri2d_codes hemoth2p_codes : List String) (vt tb : Bool)
    (fo fh : Option Int) :
    okInv (psi09_numerator dx procs pohmri2d_codes hemoth2p_codes vt tb fo fh) := by
  intro st rat det h
  simp only [psi09_numerator] at h
  repeat' split at h
  all_goals simp only [Except.ok.injEq, Prod.mk.injEq, reduceCtorEq] at h
  all_goals obtain ⟨rfl, rfl, rfl⟩ := h
  all_goals simp_all

theorem psi09_inv (age : Option PyVal) (ms_drg : String) (dx : List DxEntry)
    (procs : List ProcEntry) (admit_date : Option Int) (vt : Bool) (cs : CodeSets) :
    okInv (psi09 age ms_drg dx procs admit_date vt cs) := by
  intro st rat det h
  simp only [psi09] at h
  repeat' split at h
  all_goals first
    | exact psi09_numerator_inv _ _ _ _ _ _ _ _ st rat det h
    | simp only [Except.ok.injEq, Prod.mk.injEq, reduceCtorEq] at h
  all_goals obtain ⟨rfl, rfl, rfl⟩ := h
  all_goals simp_all

theorem psi10_numerator_inv (dx : List DxEntry) (procs : List ProcEntry)
    (physidb_codes dialyip_codes : List String) (vt tb : Bool)
    (fo fd : Option Int) :
    okInv (psi10_numerator dx procs physidb_codes dialyip_codes vt tb fo fd) := by
  intro st rat det h
  simp only [psi10_numerator] at h
  repeat' split at h
  all_goals simp only [Except.ok.injEq, Prod.mk.injEq, reduceCtorEq] at h
  all_goals obtain ⟨rfl, rfl, rfl⟩ := h
  all_goals simp_all

theorem psi10_inv (age : Option PyVal) (ms_drg : String) (dx : List DxEntry)
    (procs : List ProcEntry) (atype : Option PyVal) (admit_date : Option Int)
    (vt : Bool) (cs : CodeSets) :
    okInv (psi10 age ms_drg dx procs atype admit_date vt cs) := by
  intro st rat det h
  simp only [psi10] at h
  repeat' split at h
  all_goals first
    | exact psi10_numerator_inv _ _ _ _ _ _ _ _ st rat det h
    | simp only [Except.ok.injEq, Prod.mk.injEq, reduceCtorEq] at h
  all_goals obtain ⟨rfl, rfl, rfl⟩ := h
  all_goals simp_all

theorem psi11_numerator_inv (dx : List DxEntry) (procs : List ProcEntry)
    (orc c2d p72 p71 p04 : List String) (vt : Bool) :
    okInv (psi11_numerator dx procs orc c2d p72 p71 p04 vt) := by
  intro st rat det h
  simp only [psi11_numerator] at h
  repeat' split at h
  all_goals simp only [Except.ok.injEq, Prod.mk.injEq, reduceCtorEq] at h
  all_goals obtain ⟨rfl, rfl, rfl⟩ := h
  all_goals simp_all

theorem psi11_rest_inv (dx : List DxEntry) (procs : List ProcEntry)
    (mdc : Option PyVal) (orc : List String) (vt : Bool) (cs : CodeSets) :
    okInv (psi11_rest dx procs mdc orc vt cs) := by
  intro st rat det h
  simp only [psi11_rest] at h
  repeat' split at h
  all_goals first
    | exact psi11_numerator_inv _ _ _ _ _ _ _ _ st rat det h
    | simp only [Except.ok.injEq, Prod.mk.injEq, reduceCtorEq] at h
  all_goals obtain ⟨rfl, rfl, rfl⟩ := h
  all_goals simp_all

theorem psi11_inv (age : Option PyVal) (ms_drg : String) (dx : List DxEntry)
    (procs : List ProcEntry) (atype mdc : Option PyVal) (vt : Bool) (cs : CodeSets) :
    okInv (psi11 age ms_drg dx procs atype mdc vt cs) := by
  intro st rat det h
  simp only [psi11] at h
  repeat' split at h
  all_goals first
    | exact psi11_rest_inv _ _ _ _ _ _ st rat det h
    | simp only [Except.ok.injEq, Prod.mk.injEq, reduceCtorEq] at h
  all_goals obtain ⟨rfl, rfl, rfl⟩ := h
  all_goals simp_all

theorem psi12_inv (age : Option PyVal) (ms_drg : String) (dx : List DxEntry)
    (procs : List ProcEntry) (admit_date : Option Int) (vt : Bool) (cs : CodeSets) :
    okInv (psi12 age ms_drg dx procs admit_date vt cs) := by
  intro st rat det h
  simp only [psi12] at h
  repeat' split at h
  all_goals simp only [Except.ok.injEq, Prod.mk.injEq, reduceCtorEq] at h
  all_goals obtain ⟨rfl, rfl, rfl⟩ := h
  all_goals simp_all

theorem psi13_inv (age : Option PyVal) (ms_drg : String) (dx : List DxEntry)
    (procs : List ProcEntry) (atype : Option PyVal) (admit_date : Option Int)
    (vt : Bool) (cs : CodeSets) :
    okInv (psi13 age ms_drg dx procs atype admit_date vt cs) := by
  intro st rat det h
  simp only [psi13] at h
  repeat' split at h
  all_goals simp only [Except.ok.injEq, Prod.mk.injEq, reduceCtorEq] at h
  all_goals obtain ⟨rfl, rfl, rfl⟩ := h
  all_goals simp_all

theorem psi14_inv (age : Option PyVal) (dx : List DxEntry) (procs : List ProcEntry)
    (los : Option PyVal) (vt : Bool) (cs : CodeSets) :
    okInv (psi14 age dx procs los vt cs) := by
  intro st rat det h
  simp only [psi14] at h
  repeat' split at h
  all_goals simp only [Except.ok.injEq, Prod.mk.injEq, reduceCtorEq] at h
  all_goals obtain ⟨rfl, rfl, rfl⟩ := h
  all_goals simp_all

theorem psi15_step_rat (organs : OrganSystem → List String × List String)
    (dx : List DxEntry) (procs : List ProcEntry) (idx : Int)
    (acc : Psi15Acc) (o : OrganSystem) :
    ∀ l ∈ (psi15_organ_step organs dx procs idx acc o).rat,
      l ∈ acc.rat ∨ is_poa_block_line l = true := by
  intro l hl
  simp only [psi15_organ_step] at hl
  split at hl
  · rw [List.mem_append] at hl
    rcases hl with hl | hl
    · exact Or.inl hl
    · rw [List.mem_singleton] at hl
      subst hl
      exact Or.inr (poa_block_line_true _ _)
  · exact Or.inl hl

theorem psi15_fold_rat (organs : OrganSystem → List String × List String)
    (dx : List DxEntry) (procs : List ProcEntry) (idx : Int)
    (L : List OrganSystem) (acc : Psi15Acc) :
    ∀ l ∈ (L.foldl (psi15_organ_step organs dx procs idx) acc).rat,
      l ∈ acc.rat ∨ is_poa_block_line l = true := by
  induction L generalizing acc with
  | nil => exact fun l hl => Or.inl hl
  | cons o rest ih =>
    intro l hl
    rcases ih (psi15_organ_step organs dx procs idx acc o) l hl with h | h
    · exact psi15_step_rat organs dx procs idx acc o l h
    · exact Or.inr h

theorem psi15_inv (age : Option PyVal) (ms_drg : String) (dx : List DxEntry)
    (procs : List ProcEntry) (cs : CodeSets)
    (organs : OrganSystem → List String × List String) :
    okInv (psi15 age ms_drg dx procs cs organs) := by
  intro st rat det h
  simp only [psi15] at h
  repeat' split at h
  all_goals simp only [Except.ok.injEq, Prod.mk.injEq, reduceCtorEq] at h
  all_goals obtain ⟨rfl, rfl, rfl⟩ := h
  all_goals try (exact ⟨Or.inl rfl, fun hst => absurd hst (by decide)⟩)
  all_goals refine ⟨Or.inr rfl, fun _ l hl hexcl => ?_⟩
  all_goals rw [List.mem_append] at hl
  all_goals rcases hl with hl | hl
  case _ hl =>
    rcases psi15_fold_rat _ _ _ _ organList ⟨[], [], []⟩ l hl with hn | hp
    · exact absurd hn (List.not_mem_nil l)
    · exact hp
  case _ hl =>
    rcases hl with _ | ⟨_, hl⟩
    · rw [exl_num15] at hexcl
      exact absurd hexcl (by decide)
    · rcases hl with _ | ⟨_, hl⟩
      · rw [exl_risk] at hexcl
        exact absurd hexcl (by decide)
      · exact absurd hl (List.not_mem_nil l)

theorem psi_dispatch_inv (psi_name : String) (age : Option PyVal) (ms_drg : String)
    (dx_list : List DxEntry) (proc_list : List ProcEntry)
    (atype mdc : Option PyVal) (admit_date : Option Int)
    (length_of_stay : Option PyVal) (cs : CodeSets)
    (organs : OrganSystem → List String × List String) (vt : Bool) :
    okInv (psi_dispatch psi_name age ms_drg dx_list proc_list atype mdc admit_date
      length_of_stay cs organs vt) := by
  intro st rat det h
  simp only [psi_dispatch] at h
  repeat' split at h
  all_goals first
    | exact psi05_inv _ _ _ _ _ st rat det h
    | exact psi06_inv _ _ _ _ _ st rat det h
    | exact psi07_inv _ _ _ _ _ _ st rat det h
    | exact psi08_inv _ _ _ _ _ st rat det h
    | exact psi09_inv _ _ _ _ _ _ _ st rat det h
    | exact psi10_inv _ _ _ _ _ _ _ _ st rat det h
    | exact psi11_inv _ _ _ _ _ _ _ _ st rat det h
    | exact psi12_inv _ _ _ _ _ _ _ st rat det h
    | exact psi13_inv _ _ _ _ _ _ _ _ st rat det h
    | exact psi14_inv _ _ _ _ _ _ st rat det h
    | exact psi15_inv _ _ _ _ _ _ st rat det h
    | simp only [Except.ok.injEq, Prod.mk.injEq, reduceCtorEq] at h
  all_goals obtain ⟨rfl, rfl, rfl⟩ := h
  all_goals simp_all

theorem evaluate_inv (row : Row) (psi : String) (cs : CodeSets)
    (organs : OrganSystem → List String × List String) (dbg vt : Bool) :
    okInv (evaluate_psi_comprehensive row psi cs organs dbg vt) := by
  intro st rat det h
  simp only [evaluate_psi_comprehensive] at h
  repeat' split at h
  all_goals first
    | exact psi_dispatch_inv _ _ _ _ _ _ _ _ _ _ _ _ st rat det h
    | simp only [Except.ok.injEq, Prod.mk.injEq, reduceCtorEq] at h
  all_goals obtain ⟨rfl, rfl, rfl⟩ := h
  all_goals simp_all

@[simp] theorem los_missing_fields (d : String) :
    is_los_line ("Data Quality: Missing required fields (" ++ d ++ ")") = false := by
  rw [str_append_assoc]; exact isLos_append_false _ _ (by decide)

@[simp] theorem los_age_line (d : String) :
    is_los_line ("Age Exclusion: Patient age " ++ d ++ " < 18 years") = false := by
  rw [str_append_assoc]; exact isLos_append_false _ _ (by decide)

@[simp] theorem los_num07 (d : String) :
    is_los_line ("Numerator: CVC-related BSI found (DX: " ++ d ++ ", POA: N)") = false := by
  rw [str_append_assoc]; exact isLos_append_false _ _ (by decide)

@[simp] theorem los_num14 (d : String) :
    is_los_line ("Numerator: Postoperative wound dehiscence (DX: " ++ d
      ++ ") with reclosure procedure") = false := by
  rw [str_append_assoc]; exact isLos_append_false _ _ (by decide)

@[simp] theorem los_drg999 : is_los_line "Data Quality: Ungroupable DRG (999)" = false := by decide

@[simp] theorem los_mdc14 :
    is_los_line "Population Exclusion: Principal diagnosis in MDC 14 (Obstetric)" = false := by decide

@[simp] theorem los_mdc15 :
    is_los_line "Population Exclusion: Principal diagnosis in MDC 15 (Neonatal)" = false := by decide

@[simp] theorem los_pop07 :
    is_los_line "Population Exclusion: Not surgical/medical DRG (>=18) or obstetric case (any age)" = false := by decide

@[simp] theorem los_prin07 :
    is_los_line "Exclusion: Principal diagnosis of CVC-related BSI" = false := by decide

@[simp] theorem los_sec07 :
    is_los_line "Exclusion: Secondary diagnosis of CVC-related BSI POA=Y" = false := by decide

@[simp] theorem los_cancer :
    is_los_line "Exclusion: Any diagnosis of cancer" = false := by decide

@[simp] theorem los_immuno :
    is_los_line "Exclusion: Any diagnosis/procedure for immunocompromised state" = false := by decide

@[simp] theorem los_noqual07 :
    is_los_line "No qualifying CVC-related BSI diagnosis found for numerator" = false := by decide

@[simp] theorem los_pop14 :
    is_los_line "Population Exclusion: Not age >= 18 or no abdominopelvic surgery" = false := by decide

@[simp] theorem los_prin14 :
    is_los_line "Exclusion: Principal diagnosis of wound disruption" = false := by decide

@[simp] theorem los_sec14 :
    is_los_line "Exclusion: Secondary diagnosis of wound disruption POA=Y" = false := by decide

@[simp] theorem los_reclo_open :
    is_los_line "Exclusion: Reclosure before/same day as first open abdominopelvic surgery" = false := by decide

@[simp] theorem los_reclo_other :
    is_los_line "Exclusion: Reclosure before/same day as first non-open abdominopelvic surgery" = false := by decide

@[simp] theorem los_reclo_only :
    is_los_line "Numerator: Reclosure procedure found, but no qualifying wound disruption diagnosis" = false := by decide

@[simp] theorem los_wound_only :
    is_los_line "Numerator: Wound disruption diagnosis found, but no reclosure procedure" = false := by decide

@[simp] theorem los_noqual14 :
    is_los_line "No qualifying wound dehiscence criteria met for numerator" = false := by decide

@[simp] theorem los_stratum_open : is_los_line "Stratum: open_approach" = false := by decide

@[simp] theorem los_stratum_non : is_los_line "Stratum: non_open_approach" = false := by decide

theorem psi14_timing_not_los (procs : List ProcEntry) (a b c : List String)
    (vt : Bool) (line : String) (h : psi14_timing procs a b c vt = some line) :
    is_los_line line = false := by
  simp only [psi14_timing] at h
  repeat' split at h
  all_goals first
    | (injection h with h; rw [← h]; decide)
    | simp_all

/-- The length-of-stay gate property: when the LOS value is NA the LOS
exclusion line never appears, and the line's presence implies the source
guard `pd.notna(length_of_stay) and length_of_stay < 2` evaluated to True. -/
def losInv (los : Option PyVal) (r : Except EvalErr Result) : Prop :=
  ∀ st rat det, r = .ok (st, rat, det) →
    (pdIsna los = true → ∀ l ∈ rat, is_los_line l = false) ∧
    (∀ l ∈ rat, is_los_line l = true → pyNotnaAndLt los 2 = .ok true)

theorem psi07_los (age : Option PyVal) (ms_drg : String) (dx : List DxEntry)
    (procs : List ProcEntry) (los : Option PyVal) (cs : CodeSets) :
    losInv los (psi07 age ms_drg dx procs los cs) := by
  intro st rat det h
  simp only [psi07] at h
  repeat' split at h
  all_goals simp only [Except.ok.injEq, Prod.mk.injEq, reduceCtorEq] at h
  all_goals obtain ⟨rfl, rfl, rfl⟩ := h
  all_goals first
    | (simp_all [pyNotnaAndLt, pdNotna]; done)
    | exact ⟨fun hna => by simp_all [pyNotnaAndLt, pdNotna], fun l hl hlos => by
        rw [List.mem_singleton] at hl
        subst hl
        simp_all [pyNotnaAndLt, pdNotna]⟩

theorem psi14_los (age : Option PyVal) (dx : List DxEntry) (procs : List ProcEntry)
    (los : Option PyVal) (vt : Bool) (cs : CodeSets) :
    losInv los (psi14 age dx procs los vt cs) := by
  intro st rat det h
  simp only [psi14] at h
  repeat' split at h
  all_goals simp only [Except.ok.injEq, Prod.mk.injEq, reduceCtorEq] at h
  all_goals obtain ⟨rfl, rfl, rfl⟩ := h
  all_goals first
    | (simp_all [pyNotnaAndLt, pdNotna]; done)
    | exact ⟨fun hna l hl => by
        rw [List.mem_singleton] at hl
        subst hl
        exact psi14_timing_not_los _ _ _ _ _ _ (by assumption),
      fun l hl hlos => by
        rw [List.mem_singleton] at hl
        subst hl
        have hn := psi14_timing_not_los _ _ _ _ _ _ (by assumption)
        rw [hn] at hlos
        exact absurd hlos (by decide)⟩
    | exact ⟨fun hna => by simp_all [pyNotnaAndLt, pdNotna], fun l hl hlos => by
        rw [List.mem_singleton] at hl
        subst hl
        simp_all [pyNotnaAndLt, pdNotna]⟩

theorem psi_dispatch_los (psi_name : String) (age : Option PyVal) (ms_drg : String)
    (dx_list : List DxEntry) (proc_list : List ProcEntry)
    (atype mdc : Option PyVal) (admit_date : Option Int)
    (length_of_stay : Option PyVal) (cs : CodeSets)
    (organs : OrganSystem → List String × List String) (vt : Bool)
    (hpsi : psi_name = "PSI_07" ∨ psi_name = "PSI_14") :
    losInv length_of_stay (psi_dispatch psi_name age ms_drg dx_list proc_list atype mdc
      admit_date length_of_stay cs organs vt) := by
  rcases hpsi with rfl | rfl
  · exact psi07_los age ms_drg dx_list proc_list length_of_stay cs
  · exact psi14_los age dx_list proc_list length_of_stay vt cs

/-- The risk-category presence property: an Inclusion result carries a
`risk_category` entry in its details map. -/
def riskInv (r : Except EvalErr Result) : Prop :=
  ∀ st rat det, r = .ok (st, rat, det) → st = "Inclusion" →
    (List.lookup "risk_category" det).isSome = true

theorem psi13_risk (age : Option PyVal) (ms_drg : String) (dx : List DxEntry)
    (procs : List ProcEntry) (atype : Option PyVal) (admit_date : Option Int)
    (vt : Bool) (cs : CodeSets) :
    riskInv (psi13 age ms_drg dx procs atype admit_date vt cs) := by
  intro st rat det h
  simp only [psi13] at h
  repeat' split at h
  all_goals simp only [Except.ok.injEq, Prod.mk.injEq, reduceCtorEq] at h
  all_goals obtain ⟨rfl, rfl, rfl⟩ := h
  all_goals simp_all [List.lookup]

theorem psi15_risk (age : Option PyVal) (ms_drg : String) (dx : List DxEntry)
    (procs : List ProcEntry) (cs : CodeSets)
    (organs : OrganSystem → List String × List String) :
    riskInv (psi15 age ms_drg dx procs cs organs) := by
  intro st rat det h
  simp only [psi15] at h
  repeat' split at h
  all_goals simp only [Except.ok.injEq, Prod.mk.injEq, reduceCtorEq] at h
  all_goals obtain ⟨rfl, rfl, rfl⟩ := h
  all_goals simp_all [List.lookup]

theorem psi_dispatch_risk (psi_name : String) (age : Option PyVal) (ms_drg : String)
    (dx_list : List DxEntry) (proc_list : List ProcEntry)
    (atype mdc : Option PyVal) (admit_date : Option Int)
    (length_of_stay : Option PyVal) (cs : CodeSets)
    (organs : OrganSystem → List String × List String) (vt : Bool)
    (hpsi : psi_name = "PSI_13" ∨ psi_name = "PSI_15") :
    riskInv (psi_dispatch psi_name age ms_drg dx_list proc_list atype mdc
      admit_date length_of_stay cs organs vt) := by
  rcases hpsi with rfl | rfl
  · exact psi13_risk age ms_drg dx_list proc_list atype admit_date vt cs
  · exact psi15_risk age ms_drg dx_list proc_list cs organs

theorem evaluate_risk (row : Row) (psi : String) (cs : CodeSets)
    (organs : OrganSystem → List String × List String) (dbg vt : Bool)
    (hpsi : psi = "PSI_13" ∨ psi = "PSI_15") :
    riskInv (evaluate_psi_comprehensive row psi cs organs dbg vt) := by
  intro st rat det h
  simp only [evaluate_psi_comprehensive] at h
  repeat' split at h
  all_goals first
    | exact psi_dispatch_risk _ _ _ _ _ _ _ _ _ _ _ _ hpsi st rat det h
    | simp only [Except.ok.injEq, Prod.mk.injEq, reduceCtorEq] at h
  all_goals obtain ⟨rfl, rfl, rfl⟩ := h
  all_goals exact fun hst => absurd hst (by decide)

theorem evaluate_los (row : Row) (psi : String) (cs : CodeSets)
    (organs : OrganSystem → List String × List String) (dbg vt : Bool)
    (hpsi : psi = "PSI_07" ∨ psi = "PSI_14") :
    losInv (pyOr row.lengthOfStay row.lengthOfStay2)
      (evaluate_psi_comprehensive row psi cs organs dbg vt) := by
  intro st rat det h
  simp only [evaluate_psi_comprehensive] at h
  repeat' split at h
  all_goals first
    | exact psi_dispatch_los _ _ _ _ _ _ _ _ _ _ _ _ hpsi st rat det h
    | simp only [Except.ok.injEq, Prod.mk.injEq, reduceCtorEq] at h
  all_goals obtain ⟨rfl, rfl, rfl⟩ := h
  all_goals simp_all

/-! ### Concrete scenarios

Fully concrete rows and code-set registries used to evaluate the embedding
on closed inputs. -/

/-- A row passing the required-field data-quality gate (sex, quarter, year). -/
def baseRow : Row := { emptyRow with
  sex := some (.str "M"), dqtr := some (.int 1), year := some (.int 2024) }

/-- Registry with a surgical DRG and a retained-surgical-item code. -/
def cs1 : CodeSets := [("SURGI2R_CODES", ["SURG1"]), ("FOREIID_CODES", ["T81500A"])]

/-- A PSI_05 row passing every gate whose diagnoses miss the numerator. -/
def row1 : Row := { baseRow with
  age := some (.int 70), msdrg := some (.str "SURG1"),
  dx := fun i => if i == 1 then some (.str "I10") else none }

/-- Registry for the PSI_09 timing scenario. -/
def cs2 : CodeSets := [("SURGI2R_CODES", ["S1"]), ("ORPROC_CODES", ["ORP1"]),
  ("POHMRI2D_CODES", ["K9184"]), ("HEMOTH2P_CODES", ["HEM1"])]

/-- A PSI_09 row with a qualifying numerator diagnosis and treatment procedure
but no admission date, evaluated with timing validation on. -/
def row2 : Row := { baseRow with
  age := some (.int 50), msdrg := some (.str "S1"),
  dx := fun i => if i == 1 then some (.str "I10") else if i == 2 then some (.str "K9184") else none,
  poa := fun i => if i == 2 then some (.str "N") else none,
  proc := fun i => if i == 1 then some (.str "ORP1") else if i == 2 then some (.str "HEM1") else none }

/-- Registry for the PSI_10 timing scenario. -/
def cs2b : CodeSets := [("SURGI2R_CODES", ["S1"]), ("ORPROC_CODES", ["ORP1"]),
  ("PHYSIDB_CODES", ["N170"]), ("DIALYIP_CODES", ["DIA1"])]

/-- A PSI_10 row with a qualifying numerator diagnosis and dialysis procedure
but no admission date, evaluated with timing validation on. -/
def row2b : Row := { baseRow with
  age := some (.int 60), msdrg := some (.str "S1"), atype := some (.int 3),
  dx := fun i => if i == 1 then some (.str "I10") else if i == 2 then some (.str "N170") else none,
  poa := fun i => if i == 2 then some (.str "N") else none,
  proc := fun i => if i == 1 then some (.str "ORP1") else if i == 2 then some (.str "DIA1") else none }

/-- Registry for the PSI_15 per-organ scenario: spleen and adrenal codes. -/
def cs3 : CodeSets := [("SURGI2R_CODES", ["S1"]), ("ABDOMI15P_CODES", ["ABD1"]),
  ("SPLEEN15D_CODES", ["SPLD1"]), ("SPLEEN15P_CODES", ["SPLP1"]),
  ("ADRENAL15D_CODES", ["ADRD1"]), ("ADRENAL15P_CODES", ["ADRP1"])]

/-- A PSI_15 row whose spleen injury is POA (per-organ exclusion) while the
adrenal injury qualifies for the numerator. -/
def row3 : Row := { baseRow with
  age := some (.int 55), msdrg := some (.str "S1"),
  dx := fun i => if i == 1 then some (.str "I10") else if i == 2 then some (.str "SPLD1")
    else if i == 3 then some (.str "ADRD1") else none,
  poa := fun i => if i == 2 then some (.str "Y") else if i == 3 then some (.str "N") else none,
  proc := fun i => if i == 1 then some (.str "ABD1") else if i == 2 then some (.str "SPLP1")
    else if i == 3 then some (.str "ADRP1") else none,
  procDate := fun i => if i == 1 then some (.str "2024-05-01")
    else if i == 2 then some (.str "2024-05-10") else if i == 3 then some (.str "2024-05-10") else none }

/-- The rationale list the embedding returns on `row3`. -/
def rat3 : List String :=
  ["Exclusion: POA injury (SPLD1) with matching related procedure for spleen",
   "Numerator: Accidental puncture/laceration found for organs: adrenal",
   "Risk Category: low_complexity"]

/-- The details list the embedding returns on `row3`. -/
def det3 : Details :=
  [("organ_analysis_results", .organMap
      [("spleen", false, true, true), ("adrenal", true, true, false),
       ("vessel", false, false, false), ("diaphragm", false, false, false),
       ("gastrointestinal", false, false, false), ("genitourinary", false, false, false)]),
   ("qualifying_organs", .strList ["adrenal"]),
   ("risk_category", .str "low_complexity")]

/-- Registry with an MDC 14 principal-diagnosis code and PSI_05 codes. -/
def cs4 : CodeSets := [("MDC14PRINDX_CODES", ["O80"]), ("SURGI2R_CODES", ["S1"]),
  ("FOREIID_CODES", ["T81500A"])]

/-- A row whose principal diagnosis is obstetric (MDC 14) and which would
otherwise satisfy the PSI_05 population and numerator. -/
def row4 : Row := { baseRow with
  age := some (.int 30), msdrg := some (.str "S1"),
  dx := fun i => if i == 1 then some (.str "O80") else if i == 2 then some (.str "T81500A") else none,
  poa := fun i => if i == 2 then some (.str "N") else none }

/-- Registry for the PSI_13 scenarios. -/
def cs5 : CodeSets := [("SURGI2R_CODES", ["S1"]), ("ORPROC_CODES", ["ORP1"]),
  ("SEPTI2D_CODES", ["A419"])]

/-- A PSI_13 row excluded at the population gate (medical DRG, no OR procedure). -/
def row5x : Row := { baseRow with
  age := some (.int 40), msdrg := some (.str "M1"),
  dx := fun i => if i == 1 then some (.str "I10") else none }

/-- A PSI_13 row reaching Inclusion (elective surgical stay with sepsis). -/
def row5i : Row := { baseRow with
  age := some (.int 40), msdrg := some (.str "S1"), atype := some (.int 3),
  dx := fun i => if i == 1 then some (.str "I10") else if i == 2 then some (.str "A419") else none,
  poa := fun i => if i == 2 then some (.str "N") else none,
  proc := fun i => if i == 1 then some (.str "ORP1") else none }

/-- The details list the embedding returns on `row5i`. -/
def det5i : Details :=
  [("sepsis_matches", .strList ["A419"]), ("risk_category", .str "baseline_risk")]

/-- Registry whose surgical-DRG list holds the string "5". -/
def cs6 : CodeSets := [("SURGI2R_CODES", ["5"]), ("IATROID_CODES", ["J951"])]

/-- A PSI_06 row with the DRG columns left empty, to be filled with `.int 5`
in either the DRG or the MS-DRG column. -/
def row6base : Row := { baseRow with
  age := some (.int 40),
  dx := fun i => if i == 1 then some (.str "I10") else if i == 2 then some (.str "J951") else none,
  poa := fun i => if i == 2 then some (.str "N") else none }

/-- Registry with a severe-immune-compromise diagnosis code. -/
def cs7 : CodeSets := [("SEVEREIMMUNED_CODES", ["D80"])]

/-- Registry for the PSI_07 scenario with no length-of-stay column. -/
def cs10 : CodeSets := [("SURGI2R_CODES", ["S1"]), ("IDTMC3D_CODES", ["T80211A"])]

/-- A PSI_07 row whose length-of-stay columns are absent. -/
def row10 : Row := { baseRow with
  age := some (.int 40), msdrg := some (.str "S1"),
  dx := fun i => if i == 1 then some (.str "I10") else none }

/-! ### Further helper lemmas -/

@[simp] theorem strChars_ofChars (l : List Char) : strChars (ofChars l) = l := rfl

theorem colon_beq_false {c : Char} (hc : c ≠ ':') : (':' == c) = false := by
  simp only [beq_eq_false_iff_ne]
  exact fun he => hc he.symm

/-! ### The claims -/

/-- C1: The evaluator has no Denominator-only status. Whenever it returns a
result, the status is "Exclusion" or "Inclusion"; a record that passes every
gate but misses the numerator is reported as "Exclusion" with a
"No qualifying ..." rationale, not as a third Denominator-only verdict. -/
theorem c1_status_is_exclusion_or_inclusion (row : Row) (psi : String) (cs : CodeSets)
    (organs : OrganSystem → List String × List String) (dbg vt : Bool)
    (st : String) (rat : List String) (det : Details)
    (h : evaluate_psi_comprehensive row psi cs organs dbg vt = .ok (st, rat, det)) :
    st = "Exclusion" ∨ st = "Inclusion" :=
  (evaluate_inv row psi cs organs dbg vt st rat det h).1

/-- On `row1` (all gates pass, numerator missed) the verdict is "Exclusion",
not a distinct Denominator-only status. -/
theorem c1_no_denominator_only_output :
    evaluate_psi_comprehensive row1 "PSI_05" cs1 (build_organ_system_mapping cs1) false true
      = .ok ("Exclusion", ["No qualifying retained surgical item diagnosis found for numerator"], [])
    ∧ statusOf (evaluate_psi_comprehensive row1 "PSI_05" cs1 (build_organ_system_mapping cs1) false true)
      ≠ some "Denominator-only" :=
  ⟨rfl, by decide⟩

/-- Witness: the status dichotomy at the concrete `row1` evaluation. -/
theorem c1_status_witness : "Exclusion" = "Exclusion" ∨ "Exclusion" = "Inclusion" :=
  c1_status_is_exclusion_or_inclusion row1 "PSI_05" cs1 (build_organ_system_mapping cs1)
    false true "Exclusion" ["No qualifying retained surgical item diagnosis found for numerator"] [] rfl

/-- C2: With timing validation on and no admission date, a record with a
qualifying numerator diagnosis and treatment (resp. dialysis) procedure makes
the PSI_09 (resp. PSI_10) evaluator read the local `first_or_date` before any
branch assigns it: the evaluation aborts with an UnboundLocalError instead of
returning a result. -/
theorem c2_unbound_local_error :
    evaluate_psi_comprehensive row2 "PSI_09" cs2 (build_organ_system_mapping cs2) false true
      = .error .unboundLocal
    ∧ evaluate_psi_comprehensive row2b "PSI_10" cs2b (build_organ_system_mapping cs2b) false true
      = .error .unboundLocal :=
  ⟨rfl, rfl⟩

/-- C3: On an Inclusion verdict every rationale line that is an exclusion
reason is a per-organ POA block line; PSI_15 does append such lines to an
Inclusion rationale, so the spec's unqualified "no exclusion line" fails. -/
theorem c3_inclusion_exclusion_lines_are_poa_blocks (row : Row) (psi : String) (cs : CodeSets)
    (organs : OrganSystem → List String × List String) (dbg vt : Bool)
    (st : String) (rat : List String) (det : Details)
    (h : evaluate_psi_comprehensive row psi cs organs dbg vt = .ok (st, rat, det))
    (hst : st = "Inclusion") (l : String) (hl : l ∈ rat)
    (hexcl : is_exclusion_line l = true) : is_poa_block_line l = true :=
  (evaluate_inv row psi cs organs dbg vt st rat det h).2 hst l hl hexcl

/-- On `row3` PSI_15 returns "Inclusion" while its rationale carries the
per-organ POA exclusion line for the spleen, which is an exclusion line. -/
theorem c3_inclusion_with_exclusion_line :
    evaluate_psi_comprehensive row3 "PSI_15" cs3 (build_organ_system_mapping cs3) false true
      = .ok ("Inclusion", rat3, det3)
    ∧ is_exclusion_line "Exclusion: POA injury (SPLD1) with matching related procedure for spleen"
      = true :=
  ⟨rfl, by decide⟩

/-- Witness: the exclusion line carried by the `row3` Inclusion rationale is a
POA block line. -/
theorem c3_poa_block_witness :
    is_poa_block_line "Exclusion: POA injury (SPLD1) with matching related procedure for spleen"
      = true :=
  c3_inclusion_exclusion_lines_are_poa_blocks row3 "PSI_15" cs3 (build_organ_system_mapping cs3)
    false true "Inclusion" rat3 det3 rfl rfl
    "Exclusion: POA injury (SPLD1) with matching related procedure for spleen"
    (List.mem_cons_self _ _) (by decide)

/-- C4: A record whose principal diagnosis is in MDC14PRINDX_CODES is stopped
by the common population gate with the obstetric exclusion, for every PSI: it
never reaches the per-PSI exclusion and numerator logic, so it can never be
classified Inclusion (the spec's population disjunction fails). -/
theorem c4_mdc14_principal_always_population_excluded (row : Row) (psi : String) (cs : CodeSets)
    (organs : OrganSystem → List String × List String) (dbg vt : Bool)
    (h1 : (resolveDrg row == some 999) = false)
    (h2 : requiredMissing row = [])
    (h3 : is_code_in_dx_list (extract_dx_codes_enhanced row) (csGet cs "MDC14PRINDX_CODES")
      (some "PRINCIPAL") none = true) :
    evaluate_psi_comprehensive row psi cs organs dbg vt
      = .ok ("Exclusion", ["Population Exclusion: Principal diagnosis in MDC 14 (Obstetric)"], []) := by
  simp [evaluate_psi_comprehensive, h1, h2, h3]

/-- On `row4` (obstetric principal diagnosis, qualifying PSI_05 numerator
otherwise) the verdict is the MDC 14 population exclusion, never Inclusion. -/
theorem c4_mdc14_never_inclusion :
    evaluate_psi_comprehensive row4 "PSI_05" cs4 (build_organ_system_mapping cs4) false true
      = .ok ("Exclusion", ["Population Exclusion: Principal diagnosis in MDC 14 (Obstetric)"], [])
    ∧ statusOf (evaluate_psi_comprehensive row4 "PSI_05" cs4 (build_organ_system_mapping cs4) false true)
      ≠ some "Inclusion" :=
  ⟨rfl, by decide⟩

/-- Witness: the MDC 14 gate applied to `row4` under PSI_06. -/
theorem c4_mdc14_witness :
    evaluate_psi_comprehensive row4 "PSI_06" cs4 (build_organ_system_mapping cs4) false true
      = .ok ("Exclusion", ["Population Exclusion: Principal diagnosis in MDC 14 (Obstetric)"], []) :=
  c4_mdc14_principal_always_population_excluded row4 "PSI_06" cs4 (build_organ_system_mapping cs4)
    false true (by decide) rfl (by decide)

/-- C5: For PSI_13 and PSI_15 the risk category is guaranteed in the details
only on an Inclusion verdict: the categorizer runs after every exclusion gate,
so an excluded record's details may lack the risk_category entry (the spec's
"evaluated on included and excluded records alike" fails). -/
theorem c5_risk_category_on_inclusion (row : Row) (psi : String) (cs : CodeSets)
    (organs : OrganSystem → List String × List String) (dbg vt : Bool)
    (st : String) (rat : List String) (det : Details)
    (hpsi : psi = "PSI_13" ∨ psi = "PSI_15")
    (h : evaluate_psi_comprehensive row psi cs organs dbg vt = .ok (st, rat, det))
    (hst : st = "Inclusion") :
    (List.lookup "risk_category" det).isSome = true :=
  evaluate_risk row psi cs organs dbg vt hpsi st rat det h hst

/-- On `row5x` PSI_13 excludes at the population gate and returns empty
details: no risk_category entry is reported for the excluded record. -/
theorem c5_excluded_lacks_risk_category :
    evaluate_psi_comprehensive row5x "PSI_13" cs5 (build_organ_system_mapping cs5) false true
      = .ok ("Exclusion",
          ["Population Exclusion: Not elective surgical DRG (>=18) or no OR procedure"], [])
    ∧ (List.lookup "risk_category" ([] : Details)).isSome = false :=
  ⟨rfl, rfl⟩

/-- Witness: the included `row5i` PSI_13 record does carry a risk_category. -/
theorem c5_risk_witness : (List.lookup "risk_category" det5i).isSome = true :=
  c5_risk_category_on_inclusion row5i "PSI_13" cs5 (build_organ_system_mapping cs5) false true
    "Inclusion"
    ["Numerator: Postoperative sepsis found (DX: A419, POA: N)", "Risk Category: baseline_risk"]
    det5i (Or.inl rfl) rfl rfl

/-- C6: Under PSI_14 (whose evaluator never consults the MS-DRG string),
putting a non-blank value in the DRG column or the same value in the MS-DRG
column yields the same result; the unrestricted claim fails because the
surgical/medical DRG membership checks read only the MS-DRG column. -/
theorem c6_drg_column_equivalence_psi14 (r : Row) (v : PyVal) (cs : CodeSets)
    (organs : OrganSystem → List String × List String) (dbg vt : Bool)
    (hdrg : r.drg = none) (hms : r.msdrg = none)
    (hblank : (pyStrip (pyStr v) == "") = false) :
    evaluate_psi_comprehensive { r with drg := some v } "PSI_14" cs organs dbg vt
      = evaluate_psi_comprehensive { r with msdrg := some v } "PSI_14" cs organs dbg vt := by
  have hres : resolveDrg { r with drg := some v } = resolveDrg { r with msdrg := some v } := by
    unfold resolveDrg
    cases v with
    | na => simp [pdIsna, hdrg, hms, tryInt]
    | int n => simp [pdIsna, hdrg, hms, tryInt, pyStrOpt, hblank]
    | str s => simp [pdIsna, hdrg, hms, tryInt, pyStrOpt, hblank]
  simp only [evaluate_psi_comprehensive, psi_dispatch, hres]
  rw [show requiredMissing { r with drg := some v } = requiredMissing { r with msdrg := some v }
    from rfl]
  rw [show extract_dx_codes_enhanced { r with drg := some v }
    = extract_dx_codes_enhanced { r with msdrg := some v } from rfl]
  rw [show extract_proc_info_enhanced { r with drg := some v }
    = extract_proc_info_enhanced { r with msdrg := some v } from rfl]

/-- Under PSI_06 the integer 5 in the MS-DRG column gives Inclusion while the
same integer in the DRG column gives Exclusion: the columns are not
interchangeable in general. -/
theorem c6_drg_column_changes_verdict :
    statusOf (evaluate_psi_comprehensive { row6base with msdrg := some (.int 5) } "PSI_06" cs6
      (build_organ_system_mapping cs6) false true) = some "Inclusion"
    ∧ statusOf (evaluate_psi_comprehensive { row6base with drg := some (.int 5) } "PSI_06" cs6
      (build_organ_system_mapping cs6) false true) = some "Exclusion" :=
  ⟨rfl, rfl⟩

/-- Witness: column interchangeability at `row6base` under PSI_14. -/
theorem c6_drg_witness :
    evaluate_psi_comprehensive { row6base with drg := some (.int 5) } "PSI_14" cs6
      (build_organ_system_mapping cs6) false true
      = evaluate_psi_comprehensive { row6base with msdrg := some (.int 5) } "PSI_14" cs6
        (build_organ_system_mapping cs6) false true :=
  c6_drg_column_equivalence_psi14 row6base (.int 5) cs6 (build_organ_system_mapping cs6)
    false true rfl rfl (by decide)

/-- C7: classify_immune_compromise reports severe_immune_compromise for a
diagnosis in SEVEREIMMUNED_CODES only when that diagnosis's POA value is "Y"
or "N"; the spec's "regardless of POA" fails for POA "U", "W" or absent. -/
theorem c7_severe_immune_on_y_or_n_poa (dx : List DxEntry) (procs : List ProcEntry) (cs : CodeSets)
    (e : DxEntry) (hmem : e ∈ dx) (hcode : e.code ∈ csGet cs "SEVEREIMMUNED_CODES")
    (hpoa : e.poa = "Y" ∨ e.poa = "N") :
    classify_immune_compromise dx procs cs = "severe_immune_compromise" := by
  have key : ∀ p : String, e.poa = p →
      is_code_in_dx_list dx (csGet cs "SEVEREIMMUNED_CODES") none (some p) = true := by
    intro p hp
    simp only [is_code_in_dx_list, List.any_eq_true]
    refine ⟨e, hmem, ?_⟩
    simp [dxEntryMatches, filterTruthy, hp, List.contains, List.elem_iff, hcode]
  rcases hpoa with hp | hp
  · have hy := key "Y" hp
    simp [classify_immune_compromise, hy]
  · have hn := key "N" hp
    simp [classify_immune_compromise, hn]

/-- A SEVEREIMMUNED diagnosis with POA "U" is not classified severe. -/
theorem c7_poa_u_not_severe :
    classify_immune_compromise [⟨"D80", "U", "SECONDARY", 2⟩] [] cs7 = "baseline_risk"
    ∧ "D80" ∈ csGet cs7 "SEVEREIMMUNED_CODES" :=
  ⟨rfl, by decide⟩

/-- Witness: the same diagnosis with POA "Y" is classified severe. -/
theorem c7_severe_witness :
    classify_immune_compromise [⟨"D80", "Y", "SECONDARY", 2⟩] [] cs7
      = "severe_immune_compromise" :=
  c7_severe_immune_on_y_or_n_poa [⟨"D80", "Y", "SECONDARY", 2⟩] [] cs7
    ⟨"D80", "Y", "SECONDARY", 2⟩ (List.mem_cons_self _ _) (by decide) (Or.inl rfl)

/-- C8: For any date and any hour/minute/second digits, the three time
encodings HH:MM:SS, HHMMSS and (with seconds zero) HHMM resolve to the same
procedure datetime. -/
theorem c8_time_encodings_equal (dateRepr : String) (h1 h2 m1 m2 s1 s2 : Char)
    (hh1 : h1 ≠ ':') (hh2 : h2 ≠ ':') (hm1 : m1 ≠ ':') (hm2 : m2 ≠ ':')
    (hs1 : s1 ≠ ':') (hs2 : s2 ≠ ':') :
    procDtFromDateTime dateRepr (ofChars [h1, h2, m1, m2, s1, s2])
      = procDtFromDateTime dateRepr (ofChars [h1, h2, ':', m1, m2, ':', s1, s2])
    ∧ procDtFromDateTime dateRepr (ofChars [h1, h2, m1, m2])
      = procDtFromDateTime dateRepr (ofChars [h1, h2, ':', m1, m2, ':', '0', '0']) := by
  have e6 : normalizeTime [h1, h2, m1, m2, s1, s2] = [h1, h2, ':', m1, m2, ':', s1, s2] := by
    simp [normalizeTime, List.contains, List.elem, colon_beq_false hh1, colon_beq_false hh2,
      colon_beq_false hm1, colon_beq_false hm2, colon_beq_false hs1, colon_beq_false hs2]
  have e8 : normalizeTime [h1, h2, ':', m1, m2, ':', s1, s2]
      = [h1, h2, ':', m1, m2, ':', s1, s2] := by
    simp [normalizeTime, List.contains, List.elem]
  have e4 : normalizeTime [h1, h2, m1, m2] = [h1, h2, ':', m1, m2, ':', '0', '0'] := by
    simp [normalizeTime, List.contains, List.elem, colon_beq_false hh1, colon_beq_false hh2,
      colon_beq_false hm1, colon_beq_false hm2]
  have e8z : normalizeTime [h1, h2, ':', m1, m2, ':', '0', '0']
      = [h1, h2, ':', m1, m2, ':', '0', '0'] := by
    simp [normalizeTime, List.contains, List.elem]
  constructor
  · simp only [procDtFromDateTime, strChars_ofChars, e6, e8]
  · simp only [procDtFromDateTime, strChars_ofChars, e4, e8z]

/-- Witness: "143000", "1430" and "14:30:00" all parse to the same datetime. -/
theorem c8_time_witness :
    procDtFromDateTime "2024-05-01" (ofChars ['1', '4', '3', '0', '0', '0'])
      = procDtFromDateTime "2024-05-01" (ofChars ['1', '4', ':', '3', '0', ':', '0', '0'])
    ∧ procDtFromDateTime "2024-05-01" (ofChars ['1', '4', '3', '0'])
      = procDtFromDateTime "2024-05-01" (ofChars ['1', '4', ':', '3', '0', ':', '0', '0']) :=
  c8_time_encodings_equal "2024-05-01" '1' '4' '3' '0' '0' '0'
    (by decide) (by decide) (by decide) (by decide) (by decide) (by decide)

/-- C9: When both the first and the last procedure date for a target code set
exist, the first is at most the last. -/
theorem c9_first_le_last (procs : List ProcEntry) (targets : List String) (a b : Int)
    (h1 : get_first_procedure_date procs targets = some a)
    (h2 : get_last_procedure_date procs targets = some b) :
    a ≤ b := by
  simp only [get_first_procedure_date] at h1
  simp only [get_last_procedure_date] at h2
  have hm : a ∈ procs.filterMap (fun p => if targets.contains p.code then p.dt else none) :=
    List.min?_mem (fun x y : Int => min_choice x y) h1
  exact (List.max?_le_iff (fun x y z : Int => max_le_iff) h2).1 (le_refl b) a hm

/-- Witness: first and last dates of a concrete two-procedure list. -/
theorem c9_first_last_witness :
    get_first_procedure_date [⟨"A", some 5, 1⟩, ⟨"A", some 9, 2⟩] ["A"] = some 5
    ∧ get_last_procedure_date [⟨"A", some 5, 1⟩, ⟨"A", some 9, 2⟩] ["A"] = some 9
    ∧ (5 : Int) ≤ 9 :=
  ⟨rfl, rfl, c9_first_le_last [⟨"A", some 5, 1⟩, ⟨"A", some 9, 2⟩] ["A"] 5 9 rfl rfl⟩

/-- C10: Under PSI_07 and PSI_14 the short-stay gate fires only on a present
length of stay below two days: when the length-of-stay cell is null no
"Length of stay < 2 days" line appears in the rationale, and when such a line
appears the cell was non-null with value < 2. -/
theorem c10_los_gate_requires_present_lt2 (row : Row) (psi : String) (cs : CodeSets)
    (organs : OrganSystem → List String × List String) (dbg vt : Bool)
    (st : String) (rat : List String) (det : Details)
    (hpsi : psi = "PSI_07" ∨ psi = "PSI_14")
    (h : evaluate_psi_comprehensive row psi cs organs dbg vt = .ok (st, rat, det)) :
    (pdIsna (pyOr row.lengthOfStay row.lengthOfStay2) = true →
      ∀ l ∈ rat, is_los_line l = false)
    ∧ (∀ l ∈ rat, is_los_line l = true →
        pyNotnaAndLt (pyOr row.lengthOfStay row.lengthOfStay2) 2 = .ok true) :=
  evaluate_los row psi cs organs dbg vt hpsi st rat det h

/-- Witness: on `row10` (length of stay absent) the PSI_07 rationale line is
not a short-stay exclusion. -/
theorem c10_los_witness :
    is_los_line "No qualifying CVC-related BSI diagnosis found for numerator" = false :=
  (c10_los_gate_requires_present_lt2 row10 "PSI_07" cs10 (build_organ_system_mapping cs10)
    false true "Exclusion" ["No qualifying CVC-related BSI diagnosis found for numerator"] []
    (Or.inl rfl) rfl).1 rfl
    "No qualifying CVC-related BSI diagnosis found for numerator" (List.mem_cons_self _ _)
